import Mathlib

/-!
# KinderSlides: the submission tracker of `static/script.js`

A shallow embedding of the event handlers that `script.js` installs on the page and of
the timer callbacks they schedule.  The page is a record of the DOM properties the
handlers read and write; every `setTimeout` call appends a pending timer to a queue, and
the passing of time runs the due callbacks, earliest first.

`loadingModal` is a Bootstrap modal.  Its methods `show()` and `hide()` are embedded with the
two flags they read and write, `_isShown` and `_isTransitioning`: a call made while a
transition of the modal runs is ignored, `show()` is ignored on a shown modal and `hide()` on
a hidden one.  How long the two transitions take is set by the stylesheet of the page; the
two durations are fields of the page, zero for a modal that is not animated.  Strings are
JavaScript strings; a string is truthy exactly when it is not empty.  The handlers that only
restyle an element (hover effects of the preview cards, smooth scrolling of anchors) touch
nothing recorded here and are left out.
-/

namespace KinderSlides

/-! ## Data model -/

/-- Calls on the busy modal and on the alert banner, in the order they are made; a call of
`show()` or `hide()` is recorded also when the modal ignores it. -/
inductive Render where
  | modalShow
  | modalHide
  | alert (message : String) (type : String)
  deriving DecidableEq

/-- The bodies handed to `setTimeout` in `script.js`. -/
inductive Callback where
  /-- Lines 97-104; the closure captures `selectedTopic` of its submit event. -/
  | submitTimeout (selectedTopic : String)
  /-- Lines 109-117. -/
  | focusSettle
  /-- Lines 138-142; the closure captures the banner element `alertDiv`. -/
  | alertDismiss (alertId : Nat)
  /-- Lines 71-75; the closure captures the element `feedback`. -/
  | feedbackFade (feedbackId : Nat)
  /-- Lines 205-207; the closure captures the clicked preview card. -/
  | cardRestore (index : Nat)
  /-- The end of a transition of the modal, queued by its `show()` or `hide()`. -/
  | transitionEnd
  deriving DecidableEq

/-- A pending `setTimeout` call. -/
structure Timer where
  due : Nat
  cb : Callback
  deriving DecidableEq

/-- The `.dynamic-alert` banner built by `showAlert`. -/
structure Alert where
  id : Nat
  message : String
  type : String
  icon : String
  deriving DecidableEq

/-- The `.topic-feedback` element built by `addTopicFeedback`. -/
structure Feedback where
  id : Nat
  icon : String
  color : String
  description : String
  faded : Bool
  deriving DecidableEq

/-- An entry of `topicDescriptions`. -/
structure TopicInfo where
  description : String
  icon : String
  color : String
  deriving DecidableEq

/-- The part of the page that the handlers of `script.js` read and write. -/
structure Page where
  /-- Milliseconds on the clock that `setTimeout` measures delays with. -/
  now : Nat
  /-- Pending `setTimeout` callbacks, in the order they were registered. -/
  timers : List Timer
  /-- Value of `topicSelect`. -/
  topicValue : String
  /-- Value of `loadingModal._isShown`. -/
  modalShown : Bool
  /-- Value of `loadingModal._isTransitioning`. -/
  modalTransitioning : Bool
  /-- Milliseconds the show transition of the modal takes; 0 when it is not animated. -/
  modalShowMs : Nat
  /-- Milliseconds the hide transition of the modal takes; 0 when it is not animated. -/
  modalHideMs : Nat
  /-- Value of `generateBtn.disabled`. -/
  btnDisabled : Bool
  /-- Value of `generateBtn.innerHTML`. -/
  btnHTML : String
  /-- Whether `generateBtn.classList` holds `pulse-animation`. -/
  btnPulse : Bool
  /-- The `.topic-feedback` element of the page, if any. -/
  feedback : Option Feedback
  /-- The `.dynamic-alert` element of the page, if any. -/
  alert : Option Alert
  /-- Next fresh identity for a created element. -/
  nextId : Nat
  /-- Calls made so far on the modal and the alert banner. -/
  log : List Render
  deriving DecidableEq

/-! ## Constants of the script -/

def submitTimeoutMs : Nat := 30000

def settleDelayMs : Nat := 2000

def alertDismissMs : Nat := 5000

def feedbackFadeMs : Nat := 100

def cardRestoreMs : Nat := 150

def idleLabel : String := "<i class=\"fas fa-cogs me-2\"></i>Generate Presentation"

def topicLabel (topic : String) : String :=
  "<i class=\"fas fa-cogs me-2\"></i>Generate " ++ topic ++ " Presentation"

def busyLabel : String := "<i class=\"fas fa-spinner fa-spin me-2\"></i>Creating Presentation..."

def validationMessage : String := "Please select a topic before generating!"

def timedOutMessage : String :=
  "Generation is taking longer than expected. Please check if the download started."

def successMessage : String :=
  "Presentation generated successfully! Check your downloads folder."

def validationWarning : Render := Render.alert validationMessage "warning"

def timedOutNotice : Render := Render.alert timedOutMessage "info"

def successNotice : Render := Render.alert successMessage "success"

/-- The table `topicDescriptions` (lines 10-31), looked up by its own four keys; a value of
the select is taken not to be a property name that every JavaScript object inherits. -/
def topicDescriptions (topic : String) : Option TopicInfo :=
  if topic = "ABC" then
    some ⟨"26 beautiful slides covering A-Z with fun illustrations!", "fas fa-font", "text-primary"⟩
  else if topic = "Numbers 1-5" then
    some ⟨"5 colorful slides to help kids learn counting!", "fas fa-calculator", "text-success"⟩
  else if topic = "Shapes" then
    some ⟨"6 slides featuring basic shapes with fun examples!", "fas fa-shapes", "text-warning"⟩
  else if topic = "Colors" then
    some ⟨"8 vibrant slides teaching primary and secondary colors!", "fas fa-palette", "text-info"⟩
  else none

/-- The array `topics` of the preview-card click handler (line 191). -/
def cardTopics : List String := ["ABC", "Numbers 1-5", "Shapes", "Colors"]

/-- Function `getAlertIcon` (lines 145-153). -/
def getAlertIcon (type : String) : String :=
  if type = "success" then "check-circle"
  else if type = "warning" then "exclamation-triangle"
  else if type = "danger" then "exclamation-triangle"
  else "info-circle"

/-! ## Functions and handlers -/

/-- The call `setTimeout(cb, delay)`: one more pending timer, due `delay` ms from now. -/
def setTimeout (cb : Callback) (delay : Nat) (s : Page) : Page :=
  { s with timers := s.timers ++ [⟨s.now + delay, cb⟩] }

/-- Function `updateGenerateButton` (lines 40-48). -/
def updateGenerateButton (topic : String) (s : Page) : Page :=
  if topic ≠ "" then
    { s with btnPulse := true, btnHTML := topicLabel topic }
  else
    { s with btnPulse := false, btnHTML := idleLabel }

/-- Function `addTopicFeedback` (lines 50-77). -/
def addTopicFeedback (topic : String) (s : Page) : Page :=
  let s1 := { s with feedback := none }
  if topic ≠ "" then
    match topicDescriptions topic with
    | some info =>
      setTimeout (Callback.feedbackFade s1.nextId) feedbackFadeMs
        { s1 with
          feedback := some ⟨s1.nextId, info.icon, info.color, info.description, false⟩,
          nextId := s1.nextId + 1 }
    | none => s1
  else s1

/-- Function `showAlert` (lines 120-143): the banners present are removed, a new one is
inserted, and its removal is scheduled five seconds later. -/
def showAlert (message type : String) (s : Page) : Page :=
  setTimeout (Callback.alertDismiss s.nextId) alertDismissMs
    { s with
      alert := some ⟨s.nextId, message, type, getAlertIcon type⟩,
      nextId := s.nextId + 1,
      log := s.log ++ [Render.alert message type] }

/-- The call `loadingModal.show()`: ignored while the modal is shown or in a transition;
otherwise the modal is shown and, if animated, in a transition until its end is run. -/
def modalShow (s : Page) : Page :=
  let s1 := { s with log := s.log ++ [Render.modalShow] }
  if s.modalShown = true ∨ s.modalTransitioning = true then s1
  else if s.modalShowMs = 0 then { s1 with modalShown := true }
  else setTimeout Callback.transitionEnd s.modalShowMs
    { s1 with modalShown := true, modalTransitioning := true }

/-- The call `loadingModal.hide()`: ignored while the modal is hidden or in a transition;
otherwise the modal is hidden and, if animated, in a transition until its end is run. -/
def modalHide (s : Page) : Page :=
  let s1 := { s with log := s.log ++ [Render.modalHide] }
  if s.modalShown = false ∨ s.modalTransitioning = true then s1
  else if s.modalHideMs = 0 then { s1 with modalShown := false }
  else setTimeout Callback.transitionEnd s.modalHideMs
    { s1 with modalShown := false, modalTransitioning := true }

/-- Handler of `change` on `topicSelect` (lines 34-38), after the select took `value`. -/
def onChange (value : String) (s : Page) : Page :=
  let s1 := { s with topicValue := value }
  addTopicFeedback s1.topicValue (updateGenerateButton s1.topicValue s1)

/-- Handler of `submit` on the form (lines 80-105).  The call `e.preventDefault()` of the
validation branch acts on the navigation of the browser only, which is no part of the page
recorded here. -/
def onSubmit (s : Page) : Page :=
  let selectedTopic := s.topicValue
  if selectedTopic = "" then
    showAlert validationMessage "warning" s
  else
    setTimeout (Callback.submitTimeout selectedTopic) submitTimeoutMs
      { modalShow s with btnDisabled := true, btnHTML := busyLabel }

/-- Handler of `focus` on the window (lines 108-118). -/
def onFocus (s : Page) : Page :=
  setTimeout Callback.focusSettle settleDelayMs s

/-- Click handler of the preview card number `index` (lines 190-209): the select takes the
topic of the card (one of its options), its `change` handler runs, and the restyling of the
card is scheduled. -/
def onCardClick (index : Nat) (s : Page) : Page :=
  match cardTopics.get? index with
  | some topic => setTimeout (Callback.cardRestore index) cardRestoreMs (onChange topic s)
  | none => s

/-- Handler of `keydown` on `topicSelect` for the Enter key (lines 216-223). -/
def onEnterKey (s : Page) : Page :=
  if s.topicValue ≠ "" then onSubmit s else s

/-- Body of the timer armed by the submit handler (lines 97-104). -/
def submitTimeoutCallback (selectedTopic : String) (s : Page) : Page :=
  if s.modalShown then
    showAlert timedOutMessage "info"
      (updateGenerateButton selectedTopic { modalHide s with btnDisabled := false })
  else s

/-- Body of the timer armed by the focus handler (lines 109-117). -/
def focusSettleCallback (s : Page) : Page :=
  if s.modalShown then
    let s1 := { modalHide s with btnDisabled := false }
    let selectedTopic := s1.topicValue
    showAlert successMessage "success" (updateGenerateButton selectedTopic s1)
  else s

/-- Body of the timer armed by `showAlert` (lines 138-142): the banner is removed if it is
still in the page, that is, if no later `showAlert` call removed it. -/
def alertDismissCallback (alertId : Nat) (s : Page) : Page :=
  match s.alert with
  | some a => if a.id = alertId then { s with alert := none } else s
  | none => s

/-- Body of the timer armed by `addTopicFeedback` (lines 71-75): the element fades in; on an
element that was removed meanwhile this shows nothing. -/
def feedbackFadeCallback (feedbackId : Nat) (s : Page) : Page :=
  match s.feedback with
  | some f => if f.id = feedbackId then { s with feedback := some { f with faded := true } } else s
  | none => s

/-- The end of a transition of the modal. -/
def transitionEndCallback (s : Page) : Page :=
  { s with modalTransitioning := false }

/-- Running a callback. -/
def runCallback : Callback → Page → Page
  | Callback.submitTimeout selectedTopic, s => submitTimeoutCallback selectedTopic s
  | Callback.focusSettle, s => focusSettleCallback s
  | Callback.alertDismiss alertId, s => alertDismissCallback alertId s
  | Callback.feedbackFade feedbackId, s => feedbackFadeCallback feedbackId s
  | Callback.cardRestore _, s => s
  | Callback.transitionEnd, s => transitionEndCallback s

/-! ## The timer queue -/

/-- The pending timer that is due first (the one registered first among equals), taken out
of the queue. -/
def popEarliest : List Timer → Option (Timer × List Timer)
  | [] => none
  | t :: ts =>
    match popEarliest ts with
    | none => some (t, [])
    | some (u, rest) => if t.due ≤ u.due then some (t, ts) else some (u, t :: rest)

/-- A bound on the number of callbacks a queue can still run: a resolving callback may arm
the banner timer and the end of the hide transition, the other callbacks arm none. -/
def Callback.weight : Callback → Nat
  | Callback.submitTimeout _ => 3
  | Callback.focusSettle => 3
  | _ => 1

def queueWeight (ts : List Timer) : Nat := (ts.map fun t => t.cb.weight).sum

/-- The timer `t` fires: the clock has reached its due time and its callback runs on the
page whose queue no longer holds it. -/
def fire (t : Timer) (rest : List Timer) (s : Page) : Page :=
  runCallback t.cb { s with timers := rest, now := max s.now t.due }

/-- Runs, earliest first, the callbacks due at `target` or before. -/
def runDue : Nat → Nat → Page → Page
  | 0, _, s => s
  | fuel + 1, target, s =>
    match popEarliest s.timers with
    | none => s
    | some (t, rest) => if t.due ≤ target then runDue fuel target (fire t rest s) else s

/-- The clock advances by `dt` ms: every callback that falls due runs. -/
def advance (dt : Nat) (s : Page) : Page :=
  { runDue (queueWeight s.timers) (s.now + dt) s with now := s.now + dt }

/-! ## Events and runs -/

/-- What can happen to the page. -/
inductive Event where
  | change (value : String)
  | cardClick (index : Nat)
  | submit
  | enterKey
  | focus
  | advance (dt : Nat)
  deriving DecidableEq

def handle : Event → Page → Page
  | Event.change value, s => onChange value s
  | Event.cardClick index, s => onCardClick index s
  | Event.submit, s => onSubmit s
  | Event.enterKey, s => onEnterKey s
  | Event.focus, s => onFocus s
  | Event.advance dt, s => advance dt s

/-- The page after the events of a list, first to last. -/
def run : List Event → Page → Page
  | [], s => s
  | e :: es, s => run es (handle e s)

/-- A page as the document is loaded: no timer is pending, the busy modal is hidden and at
rest, and the generate button is enabled.  The show transition of the modal, if it has one,
takes less than the submission timeout. -/
def Initial (s : Page) : Prop :=
  s.timers = [] ∧ s.modalShown = false ∧ s.btnDisabled = false ∧
    s.modalTransitioning = false ∧ s.modalShowMs < submitTimeoutMs

instance (s : Page) : Decidable (Initial s) := by
  unfold Initial; infer_instance

/-- The page right after load, no topic chosen, with a modal that is not animated. -/
def freshPage : Page :=
  { now := 0, timers := [], topicValue := "", modalShown := false, modalTransitioning := false,
    modalShowMs := 0, modalHideMs := 0, btnDisabled := false,
    btnHTML := idleLabel, btnPulse := false, feedback := none, alert := none, nextId := 0,
    log := [] }

/-- The page right after load with a modal animated by the class `fade` of Bootstrap: the
backdrop and then the dialog fade in, about 460 ms together, and the modal fades out in
about 155 ms. -/
def fadePage : Page :=
  { freshPage with modalShowMs := 460, modalHideMs := 155 }

/-- The pages that a sequence of events leads to from a page as loaded. -/
def Reachable (s : Page) : Prop :=
  ∃ s0 es, Initial s0 ∧ s = run es s0

/-- The tracker is Armed: the busy modal is shown. -/
def Armed (s : Page) : Prop := s.modalShown = true

/-- The tracker is Idle: the busy modal is hidden. -/
def Idle (s : Page) : Prop := s.modalShown = false

instance (s : Page) : Decidable (Armed s) := by
  unfold Armed; infer_instance

instance (s : Page) : Decidable (Idle s) := by
  unfold Idle; infer_instance

def Callback.isSubmitTimeout : Callback → Bool
  | Callback.submitTimeout _ => true
  | _ => false

/-- The pending submission-timeout timers. -/
def pendingTimeouts (s : Page) : List Timer :=
  s.timers.filter fun t => t.cb.isSubmitTimeout

def Event.isSubmission : Event → Bool
  | Event.submit => true
  | Event.enterKey => true
  | _ => false

/-- Milliseconds that pass during a list of events. -/
def elapsed : List Event → Nat
  | [] => 0
  | Event.advance dt :: es => dt + elapsed es
  | _ :: es => elapsed es

/-- What the events other than a submission leave alone on an Idle page: the page stays
Idle, the disabled flag of the button is as before, and nothing is added to the log. -/
def Stays (s s' : Page) : Prop :=
  s.modalShown = false →
    s'.modalShown = false ∧ s'.btnDisabled = s.btnDisabled ∧ s'.log = s.log

/-- The show transition is shorter than the submission timeout, and a shown modal has a
submission-timeout timer pending that is due after the end of the transition that runs. -/
structure Tracked (s : Page) : Prop where
  show_lt : s.modalShowMs < submitTimeoutMs
  armed_timer : s.modalShown = true →
    ∃ t ∈ s.timers, t.cb.isSubmitTimeout = true ∧
      (s.modalTransitioning = true →
        ∃ u ∈ s.timers, u.cb = Callback.transitionEnd ∧ u.due < t.due)

/-- A transition of the modal that runs has its end pending, due at `bound` or before. -/
def TransitionBy (bound : Nat) (s : Page) : Prop :=
  s.modalTransitioning = true →
    ∃ u ∈ s.timers, u.cb = Callback.transitionEnd ∧ u.due ≤ bound

/-- Every pending timer is due later than now. -/
def Quiet (s : Page) : Prop := ∀ t ∈ s.timers, s.now < t.due

/-- Every pending submission-timeout timer is due within the submission timeout. -/
def Bounded (s : Page) : Prop :=
  ∀ t ∈ s.timers, t.cb.isSubmitTimeout = true → t.due ≤ s.now + submitTimeoutMs

/-- The callbacks that can resolve a submission: the two that test `loadingModal._isShown`. -/
def Callback.resolves : Callback → Bool
  | Callback.submitTimeout _ => true
  | Callback.focusSettle => true
  | _ => false

/-- The notice that a resolving callback renders. -/
def Callback.notice : Callback → Render
  | Callback.submitTimeout _ => timedOutNotice
  | _ => successNotice

/-- The pending timers whose callback can resolve a submission. -/
def resolvers (s : Page) : List Timer :=
  s.timers.filter fun t => t.cb.resolves

/-! ## Scenarios -/

/-- A page with the animated modal on which the topic `topic` has just been chosen, right
after load. -/
def chosenFade (topic : String) : Page := run [Event.change topic] fadePage

/-- A submission of "ABC" at 0 ms that a focus event at 500 ms resolves at 2500 ms. -/
def refocusCycle : List Event :=
  [Event.change "ABC", Event.submit, Event.advance 500, Event.focus, Event.advance 2000]

/-- After `refocusCycle`, a second submission at 20000 ms, and the clock `after` ms after
that submission. -/
def secondCycle (after : Nat) : List Event :=
  refocusCycle ++ [Event.advance 17500, Event.submit, Event.advance after]

/-- After `refocusCycle`, a second submission at 20000 ms, a focus event at 29000 ms, and the
clock `after` ms after that focus event. -/
def staleRace (after : Nat) : List Event :=
  refocusCycle ++ [Event.advance 17500, Event.submit, Event.advance 9000, Event.focus,
    Event.advance after]

/-- A focus event at 0 ms on the loaded page, a submission of "ABC" at 1000 ms, and the
clock `after` ms after that submission. -/
def focusThenSubmit (after : Nat) : List Event :=
  [Event.focus, Event.advance 1000, Event.change "ABC", Event.submit, Event.advance after]

/-- A submission of "ABC" at 0 ms, the topic changed to "Shapes" at 1000 ms, and the clock
at 30000 ms. -/
def changeWhileBusy : List Event :=
  [Event.change "ABC", Event.submit, Event.advance 1000, Event.change "Shapes",
    Event.advance 29000]

/-- After `refocusCycle`, the topic changed to "Shapes" at 5000 ms, a second submission at
20000 ms, and the clock at 30000 ms. -/
def changeBetweenCycles : List Event :=
  refocusCycle ++ [Event.advance 2500, Event.change "Shapes", Event.advance 15000,
    Event.submit, Event.advance 10000]

/-- A focus event at 0 ms, "ABC" submitted at 1900 ms, and the clock `after` ms after the
submission: the settle callback of the focus event runs 100 ms after the submission. -/
def settleDuringShow (after : Nat) : List Event :=
  [Event.change "ABC", Event.focus, Event.advance 1900, Event.submit, Event.advance after]

/-- A submission of "ABC" at 0 ms that times out at 30000 ms, and the clock at 30100 ms. -/
def timedOutCycle : List Event :=
  [Event.change "ABC", Event.submit, Event.advance 30100]

/-- After `timedOutCycle`, the Enter key pressed on the select at 30100 ms, and the clock
`after` ms after it. -/
def submitDuringHide (after : Nat) : List Event :=
  timedOutCycle ++ [Event.enterKey, Event.advance after]

/-! ## Field lemmas for the functions of the script -/

section Fields

variable (s : Page) (topic message type : String) (cb : Callback) (delay : Nat)

@[simp] theorem setTimeout_timers :
    (setTimeout cb delay s).timers = s.timers ++ [⟨s.now + delay, cb⟩] := rfl

@[simp] theorem setTimeout_now : (setTimeout cb delay s).now = s.now := rfl

@[simp] theorem setTimeout_topicValue : (setTimeout cb delay s).topicValue = s.topicValue := rfl

@[simp] theorem setTimeout_modalShown : (setTimeout cb delay s).modalShown = s.modalShown := rfl

@[simp] theorem setTimeout_btnDisabled : (setTimeout cb delay s).btnDisabled = s.btnDisabled := rfl

@[simp] theorem setTimeout_btnHTML : (setTimeout cb delay s).btnHTML = s.btnHTML := rfl

@[simp] theorem setTimeout_btnPulse : (setTimeout cb delay s).btnPulse = s.btnPulse := rfl

@[simp] theorem setTimeout_log : (setTimeout cb delay s).log = s.log := rfl

@[simp] theorem setTimeout_modalTransitioning :
    (setTimeout cb delay s).modalTransitioning = s.modalTransitioning := rfl

@[simp] theorem setTimeout_modalShowMs : (setTimeout cb delay s).modalShowMs = s.modalShowMs := rfl

@[simp] theorem setTimeout_modalHideMs : (setTimeout cb delay s).modalHideMs = s.modalHideMs := rfl

@[simp] theorem setTimeout_nextId : (setTimeout cb delay s).nextId = s.nextId := rfl

@[simp] theorem updateGenerateButton_timers :
    (updateGenerateButton topic s).timers = s.timers := by
  unfold updateGenerateButton; split <;> rfl

@[simp] theorem updateGenerateButton_now : (updateGenerateButton topic s).now = s.now := by
  unfold updateGenerateButton; split <;> rfl

@[simp] theorem updateGenerateButton_topicValue :
    (updateGenerateButton topic s).topicValue = s.topicValue := by
  unfold updateGenerateButton; split <;> rfl

@[simp] theorem updateGenerateButton_modalShown :
    (updateGenerateButton topic s).modalShown = s.modalShown := by
  unfold updateGenerateButton; split <;> rfl

@[simp] theorem updateGenerateButton_btnDisabled :
    (updateGenerateButton topic s).btnDisabled = s.btnDisabled := by
  unfold updateGenerateButton; split <;> rfl

@[simp] theorem updateGenerateButton_nextId :
    (updateGenerateButton topic s).nextId = s.nextId := by
  unfold updateGenerateButton; split <;> rfl

@[simp] theorem updateGenerateButton_log : (updateGenerateButton topic s).log = s.log := by
  unfold updateGenerateButton; split <;> rfl

@[simp] theorem updateGenerateButton_modalTransitioning :
    (updateGenerateButton topic s).modalTransitioning = s.modalTransitioning := by
  unfold updateGenerateButton; split <;> rfl

@[simp] theorem updateGenerateButton_modalShowMs :
    (updateGenerateButton topic s).modalShowMs = s.modalShowMs := by
  unfold updateGenerateButton; split <;> rfl

@[simp] theorem updateGenerateButton_modalHideMs :
    (updateGenerateButton topic s).modalHideMs = s.modalHideMs := by
  unfold updateGenerateButton; split <;> rfl

theorem updateGenerateButton_btnHTML :
    (updateGenerateButton topic s).btnHTML = if topic ≠ "" then topicLabel topic else idleLabel := by
  unfold updateGenerateButton; split <;> rfl

@[simp] theorem showAlert_timers :
    (showAlert message type s).timers
      = s.timers ++ [⟨s.now + alertDismissMs, Callback.alertDismiss s.nextId⟩] := rfl

@[simp] theorem showAlert_now : (showAlert message type s).now = s.now := rfl

@[simp] theorem showAlert_topicValue : (showAlert message type s).topicValue = s.topicValue := rfl

@[simp] theorem showAlert_modalShown : (showAlert message type s).modalShown = s.modalShown := rfl

@[simp] theorem showAlert_btnDisabled :
    (showAlert message type s).btnDisabled = s.btnDisabled := rfl

@[simp] theorem showAlert_btnHTML : (showAlert message type s).btnHTML = s.btnHTML := rfl

@[simp] theorem showAlert_btnPulse : (showAlert message type s).btnPulse = s.btnPulse := rfl

@[simp] theorem showAlert_modalTransitioning :
    (showAlert message type s).modalTransitioning = s.modalTransitioning := rfl

@[simp] theorem showAlert_modalShowMs : (showAlert message type s).modalShowMs = s.modalShowMs := rfl

@[simp] theorem showAlert_modalHideMs : (showAlert message type s).modalHideMs = s.modalHideMs := rfl

@[simp] theorem showAlert_log :
    (showAlert message type s).log = s.log ++ [Render.alert message type] := rfl

@[simp] theorem addTopicFeedback_now : (addTopicFeedback topic s).now = s.now := by
  unfold addTopicFeedback; split
  · split <;> rfl
  · rfl

@[simp] theorem addTopicFeedback_topicValue :
    (addTopicFeedback topic s).topicValue = s.topicValue := by
  unfold addTopicFeedback; split
  · split <;> rfl
  · rfl

@[simp] theorem addTopicFeedback_modalShown :
    (addTopicFeedback topic s).modalShown = s.modalShown := by
  unfold addTopicFeedback; split
  · split <;> rfl
  · rfl

@[simp] theorem addTopicFeedback_btnDisabled :
    (addTopicFeedback topic s).btnDisabled = s.btnDisabled := by
  unfold addTopicFeedback; split
  · split <;> rfl
  · rfl

@[simp] theorem addTopicFeedback_btnHTML : (addTopicFeedback topic s).btnHTML = s.btnHTML := by
  unfold addTopicFeedback; split
  · split <;> rfl
  · rfl

@[simp] theorem addTopicFeedback_log : (addTopicFeedback topic s).log = s.log := by
  unfold addTopicFeedback; split
  · split <;> rfl
  · rfl

@[simp] theorem addTopicFeedback_modalTransitioning :
    (addTopicFeedback topic s).modalTransitioning = s.modalTransitioning := by
  unfold addTopicFeedback; split
  · split <;> rfl
  · rfl

@[simp] theorem addTopicFeedback_modalShowMs :
    (addTopicFeedback topic s).modalShowMs = s.modalShowMs := by
  unfold addTopicFeedback; split
  · split <;> rfl
  · rfl

@[simp] theorem addTopicFeedback_modalHideMs :
    (addTopicFeedback topic s).modalHideMs = s.modalHideMs := by
  unfold addTopicFeedback; split
  · split <;> rfl
  · rfl

/-- The timers that `addTopicFeedback` leaves pending: those of before, and at most the
fade-in of the new element. -/
theorem addTopicFeedback_timers :
    (addTopicFeedback topic s).timers = s.timers ∨
    (addTopicFeedback topic s).timers
      = s.timers ++ [⟨s.now + feedbackFadeMs, Callback.feedbackFade s.nextId⟩] := by
  unfold addTopicFeedback; split
  · split
    · right; rfl
    · left; rfl
  · left; rfl

end Fields

/-! ## The modal -/

theorem modalShow_of_busy (s : Page) (h : s.modalShown = true ∨ s.modalTransitioning = true) :
    modalShow s = { s with log := s.log ++ [Render.modalShow] } := by
  simp only [modalShow, if_pos h]

theorem modalShow_of_rest (s : Page) (h1 : s.modalShown = false)
    (h2 : s.modalTransitioning = false) :
    modalShow s =
      if s.modalShowMs = 0 then
        { s with log := s.log ++ [Render.modalShow], modalShown := true }
      else setTimeout Callback.transitionEnd s.modalShowMs
        { s with log := s.log ++ [Render.modalShow], modalShown := true,
                 modalTransitioning := true } := by
  simp [modalShow, h1, h2]

theorem modalHide_of_ignored (s : Page)
    (h : s.modalShown = false ∨ s.modalTransitioning = true) :
    modalHide s = { s with log := s.log ++ [Render.modalHide] } := by
  simp only [modalHide, if_pos h]

theorem modalHide_of_rest (s : Page) (h1 : s.modalShown = true)
    (h2 : s.modalTransitioning = false) :
    modalHide s =
      if s.modalHideMs = 0 then
        { s with log := s.log ++ [Render.modalHide], modalShown := false }
      else setTimeout Callback.transitionEnd s.modalHideMs
        { s with log := s.log ++ [Render.modalHide], modalShown := false,
                 modalTransitioning := true } := by
  simp [modalHide, h1, h2]

section Modal

variable (s : Page)

@[simp] theorem modalShow_now : (modalShow s).now = s.now := by
  unfold modalShow; split
  · rfl
  · split <;> rfl

@[simp] theorem modalShow_topicValue : (modalShow s).topicValue = s.topicValue := by
  unfold modalShow; split
  · rfl
  · split <;> rfl

@[simp] theorem modalShow_nextId : (modalShow s).nextId = s.nextId := by
  unfold modalShow; split
  · rfl
  · split <;> rfl

@[simp] theorem modalShow_btnPulse : (modalShow s).btnPulse = s.btnPulse := by
  unfold modalShow; split
  · rfl
  · split <;> rfl

@[simp] theorem modalShow_modalShowMs : (modalShow s).modalShowMs = s.modalShowMs := by
  unfold modalShow; split
  · rfl
  · split <;> rfl

@[simp] theorem modalShow_modalHideMs : (modalShow s).modalHideMs = s.modalHideMs := by
  unfold modalShow; split
  · rfl
  · split <;> rfl

@[simp] theorem modalShow_log : (modalShow s).log = s.log ++ [Render.modalShow] := by
  unfold modalShow; split
  · rfl
  · split <;> rfl

@[simp] theorem modalHide_now : (modalHide s).now = s.now := by
  unfold modalHide; split
  · rfl
  · split <;> rfl

@[simp] theorem modalHide_topicValue : (modalHide s).topicValue = s.topicValue := by
  unfold modalHide; split
  · rfl
  · split <;> rfl

@[simp] theorem modalHide_nextId : (modalHide s).nextId = s.nextId := by
  unfold modalHide; split
  · rfl
  · split <;> rfl

@[simp] theorem modalHide_modalShowMs : (modalHide s).modalShowMs = s.modalShowMs := by
  unfold modalHide; split
  · rfl
  · split <;> rfl

@[simp] theorem modalHide_modalHideMs : (modalHide s).modalHideMs = s.modalHideMs := by
  unfold modalHide; split
  · rfl
  · split <;> rfl

@[simp] theorem modalHide_log : (modalHide s).log = s.log ++ [Render.modalHide] := by
  unfold modalHide; split
  · rfl
  · split <;> rfl

/-- The timers after `show()`: those of before, and at most the end of the show transition. -/
theorem modalShow_timers :
    (modalShow s).timers = s.timers ∨
    (0 < s.modalShowMs ∧ s.modalShown = false ∧ s.modalTransitioning = false ∧
      (modalShow s).modalTransitioning = true ∧
      (modalShow s).timers = s.timers ++ [⟨s.now + s.modalShowMs, Callback.transitionEnd⟩]) := by
  unfold modalShow; split
  · left; rfl
  · rename_i h
    split
    · left; rfl
    · right
      simp only [not_or, Bool.not_eq_true] at h
      exact ⟨by omega, h.1, h.2, rfl, rfl⟩

/-- The timers after `hide()`: those of before, and at most the end of the hide transition. -/
theorem modalHide_timers :
    (modalHide s).timers = s.timers ∨
    (0 < s.modalHideMs ∧
      (modalHide s).timers = s.timers ++ [⟨s.now + s.modalHideMs, Callback.transitionEnd⟩]) := by
  unfold modalHide; split
  · left; rfl
  · split
    · left; rfl
    · right
      exact ⟨by omega, rfl⟩

/-- A call of `hide()` on a shown modal at rest hides it. -/
theorem modalHide_modalShown (h1 : s.modalShown = true) (h2 : s.modalTransitioning = false) :
    (modalHide s).modalShown = false := by
  rw [modalHide_of_rest s h1 h2]
  split <;> rfl

/-- A call of `show()` on a hidden modal at rest shows it. -/
theorem modalShow_modalShown (h1 : s.modalShown = false) (h2 : s.modalTransitioning = false) :
    (modalShow s).modalShown = true := by
  rw [modalShow_of_rest s h1 h2]
  split <;> rfl

end Modal

/-! ## The timer callbacks -/

theorem submitTimeoutCallback_idle (s : Page) (topic : String) (h : s.modalShown = false) :
    submitTimeoutCallback topic s = s := by
  simp [submitTimeoutCallback, h]

theorem focusSettleCallback_idle (s : Page) (h : s.modalShown = false) :
    focusSettleCallback s = s := by
  simp [focusSettleCallback, h]

theorem submitTimeoutCallback_shown (s : Page) (topic : String) (h : s.modalShown = true) :
    submitTimeoutCallback topic s
      = showAlert timedOutMessage "info"
          (updateGenerateButton topic { modalHide s with btnDisabled := false }) := by
  simp [submitTimeoutCallback, h]

theorem focusSettleCallback_shown (s : Page) (h : s.modalShown = true) :
    focusSettleCallback s
      = showAlert successMessage "success"
          (updateGenerateButton s.topicValue { modalHide s with btnDisabled := false }) := by
  simp [focusSettleCallback, h]

/-- What a resolving callback does on a page whose modal is shown, whether or not the modal
takes the call of `hide()`. -/
theorem runCallback_shown (cb : Callback) (s : Page) (hr : cb.resolves = true)
    (h : s.modalShown = true) :
    (runCallback cb s).btnDisabled = false ∧
    (runCallback cb s).log = s.log ++ [Render.modalHide, cb.notice] ∧
    (runCallback cb s).modalShown = (modalHide s).modalShown ∧
    (runCallback cb s).modalTransitioning = (modalHide s).modalTransitioning ∧
    (runCallback cb s).timers
      = (modalHide s).timers ++ [⟨s.now + alertDismissMs, Callback.alertDismiss s.nextId⟩] ∧
    (runCallback cb s).topicValue = s.topicValue ∧
    (runCallback cb s).modalShowMs = s.modalShowMs ∧
    (runCallback cb s).modalHideMs = s.modalHideMs := by
  cases cb with
  | submitTimeout topic =>
    simp only [runCallback]
    rw [submitTimeoutCallback_shown s topic h]
    simp [Callback.notice, timedOutNotice]
  | focusSettle =>
    simp only [runCallback]
    rw [focusSettleCallback_shown s h]
    simp [Callback.notice, successNotice]
  | alertDismiss i => simp [Callback.resolves] at hr
  | feedbackFade i => simp [Callback.resolves] at hr
  | cardRestore i => simp [Callback.resolves] at hr
  | transitionEnd => simp [Callback.resolves] at hr

/-- A resolving callback changes nothing on a page whose modal is hidden. -/
theorem runCallback_idle (cb : Callback) (s : Page) (hr : cb.resolves = true)
    (h : s.modalShown = false) : runCallback cb s = s := by
  cases cb with
  | submitTimeout topic => exact submitTimeoutCallback_idle s topic h
  | focusSettle => exact focusSettleCallback_idle s h
  | alertDismiss i => simp [Callback.resolves] at hr
  | feedbackFade i => simp [Callback.resolves] at hr
  | cardRestore i => simp [Callback.resolves] at hr
  | transitionEnd => simp [Callback.resolves] at hr

/-- A callback that cannot resolve a submission leaves the tracker, the log and the queue
alone; the end of a transition puts the modal at rest. -/
theorem runCallback_of_not_resolves (cb : Callback) (s : Page) (h : cb.resolves = false) :
    (runCallback cb s).modalShown = s.modalShown ∧
    (runCallback cb s).btnDisabled = s.btnDisabled ∧
    (runCallback cb s).log = s.log ∧
    (runCallback cb s).timers = s.timers ∧
    (runCallback cb s).topicValue = s.topicValue ∧
    (runCallback cb s).modalShowMs = s.modalShowMs ∧
    (runCallback cb s).modalHideMs = s.modalHideMs ∧
    (runCallback cb s).now = s.now ∧
    (runCallback cb s).modalTransitioning
      = (if cb = Callback.transitionEnd then false else s.modalTransitioning) := by
  cases cb with
  | submitTimeout topic => simp [Callback.resolves] at h
  | focusSettle => simp [Callback.resolves] at h
  | alertDismiss i =>
    simp only [runCallback, alertDismissCallback]
    split
    · split <;> simp
    · simp
  | feedbackFade i =>
    simp only [runCallback, feedbackFadeCallback]
    split
    · split <;> simp
    · simp
  | cardRestore i => simp [runCallback]
  | transitionEnd => simp [runCallback, transitionEndCallback]

/-- The timers a callback leaves pending: those of before, and the ones it arms, which weigh
less than the callback and cannot resolve a submission. -/
theorem runCallback_timers (cb : Callback) (s : Page) :
    ∃ us, (runCallback cb s).timers = s.timers ++ us ∧ queueWeight us < cb.weight ∧
      ∀ u ∈ us, u.cb.resolves = false ∧ u.cb.isSubmitTimeout = false := by
  by_cases hr : cb.resolves = true
  · have hw : cb.weight = 3 := by
      cases cb <;> simp [Callback.resolves] at hr <;> rfl
    cases hm : s.modalShown
    · rw [runCallback_idle cb s hr hm]
      exact ⟨[], by simp, by rw [hw]; simp [queueWeight], by simp⟩
    · obtain ⟨-, -, -, -, h5, -⟩ := runCallback_shown cb s hr hm
      rcases modalHide_timers s with h1 | ⟨-, h1⟩
      · rw [h1] at h5
        exact ⟨_, h5, by rw [hw]; simp [queueWeight, Callback.weight],
          by simp [Callback.resolves, Callback.isSubmitTimeout]⟩
      · rw [h1, List.append_assoc] at h5
        exact ⟨_, h5, by rw [hw]; simp [queueWeight, Callback.weight],
          by simp [Callback.resolves, Callback.isSubmitTimeout]⟩
  · have hr' : cb.resolves = false := by simpa using hr
    obtain ⟨-, -, -, h4, -⟩ := runCallback_of_not_resolves cb s hr'
    have hw : 1 ≤ cb.weight := by cases cb <;> simp [Callback.weight]
    exact ⟨[], by simp [h4], by simp [queueWeight]; omega, by simp⟩

theorem runCallback_topicValue (cb : Callback) (s : Page) :
    (runCallback cb s).topicValue = s.topicValue ∧
    (runCallback cb s).modalShowMs = s.modalShowMs ∧
    (runCallback cb s).modalHideMs = s.modalHideMs := by
  by_cases hr : cb.resolves = true
  · cases hm : s.modalShown
    · rw [runCallback_idle cb s hr hm]
      exact ⟨rfl, rfl, rfl⟩
    · obtain ⟨-, -, -, -, -, h6, h7, h8⟩ := runCallback_shown cb s hr hm
      exact ⟨h6, h7, h8⟩
  · obtain ⟨-, -, -, -, h5, h6, h7, -⟩ := runCallback_of_not_resolves cb s (by simpa using hr)
    exact ⟨h5, h6, h7⟩

/-! ## Events other than a submission, on an Idle page -/

theorem Stays.refl (s : Page) : Stays s s := fun h => ⟨h, rfl, rfl⟩

theorem Stays.of_same {s s' : Page} (hm : s'.modalShown = s.modalShown)
    (hb : s'.btnDisabled = s.btnDisabled) (hl : s'.log = s.log) : Stays s s' :=
  fun h => ⟨hm.trans h, hb, hl⟩

theorem Stays.trans {a b c : Page} (hab : Stays a b) (hbc : Stays b c) : Stays a c := by
  intro h
  obtain ⟨h1, h2, h3⟩ := hab h
  obtain ⟨k1, k2, k3⟩ := hbc h1
  exact ⟨k1, k2.trans h2, k3.trans h3⟩

theorem stays_runCallback (cb : Callback) (s : Page) : Stays s (runCallback cb s) := by
  by_cases hr : cb.resolves = true
  · intro h
    rw [runCallback_idle cb s hr h]
    exact ⟨h, rfl, rfl⟩
  · obtain ⟨h1, h2, h3, -⟩ := runCallback_of_not_resolves cb s (by simpa using hr)
    exact Stays.of_same h1 h2 h3

theorem stays_fire (t : Timer) (rest : List Timer) (s : Page) : Stays s (fire t rest s) := by
  have h : Stays s { s with timers := rest, now := max s.now t.due } :=
    Stays.of_same rfl rfl rfl
  exact Stays.trans h (stays_runCallback t.cb _)

theorem stays_runDue (fuel target : Nat) (s : Page) : Stays s (runDue fuel target s) := by
  induction fuel generalizing s with
  | zero => exact Stays.refl s
  | succ n ih =>
    unfold runDue
    split
    · exact Stays.refl s
    · split
      · exact Stays.trans (stays_fire _ _ s) (ih _)
      · exact Stays.refl s

theorem stays_advance (dt : Nat) (s : Page) : Stays s (advance dt s) := by
  have h : Stays (runDue (queueWeight s.timers) (s.now + dt) s) (advance dt s) :=
    Stays.of_same rfl rfl rfl
  exact Stays.trans (stays_runDue _ _ s) h

theorem stays_onChange (value : String) (s : Page) : Stays s (onChange value s) :=
  Stays.of_same (by simp [onChange]) (by simp [onChange]) (by simp [onChange])

theorem stays_onCardClick (index : Nat) (s : Page) : Stays s (onCardClick index s) := by
  unfold onCardClick
  split
  · rename_i topic _
    have h : Stays (onChange topic s)
        (setTimeout (Callback.cardRestore index) cardRestoreMs (onChange topic s)) :=
      Stays.of_same rfl rfl rfl
    exact Stays.trans (stays_onChange topic s) h
  · exact Stays.refl s

theorem stays_handle (e : Event) (s : Page) (he : e.isSubmission = false) :
    Stays s (handle e s) := by
  cases e with
  | change value => exact stays_onChange value s
  | cardClick index => exact stays_onCardClick index s
  | submit => simp [Event.isSubmission] at he
  | enterKey => simp [Event.isSubmission] at he
  | focus => exact Stays.of_same rfl rfl rfl
  | advance dt => exact stays_advance dt s

theorem stays_run (es : List Event) (s : Page) (hes : ∀ e ∈ es, e.isSubmission = false) :
    Stays s (run es s) := by
  induction es generalizing s with
  | nil => exact Stays.refl s
  | cons e es ih =>
    exact Stays.trans (stays_handle e s (hes e (List.mem_cons_self _ _)))
      (ih _ fun x hx => hes x (List.mem_cons_of_mem _ hx))

/-! ## The timer queue -/

theorem popEarliest_eq_none {ts : List Timer} (h : popEarliest ts = none) : ts = [] := by
  cases ts with
  | nil => rfl
  | cons t ts =>
    unfold popEarliest at h
    split at h
    · simp at h
    · split at h <;> simp at h

theorem popEarliest_perm {ts rest : List Timer} {t : Timer}
    (h : popEarliest ts = some (t, rest)) : List.Perm ts (t :: rest) := by
  induction ts generalizing t rest with
  | nil => simp [popEarliest] at h
  | cons a ts ih =>
    unfold popEarliest at h
    split at h
    · rename_i hn
      simp at h
      obtain ⟨rfl, rfl⟩ := h
      rw [popEarliest_eq_none hn]
    · rename_i _ r hs
      split at h
      · simp at h
        obtain ⟨rfl, rfl⟩ := h
        exact List.Perm.refl _
      · simp at h
        obtain ⟨rfl, rfl⟩ := h
        exact (List.Perm.cons a (ih hs)).trans (List.Perm.swap _ _ _)

theorem popEarliest_le {ts rest : List Timer} {t : Timer}
    (h : popEarliest ts = some (t, rest)) : ∀ u ∈ ts, t.due ≤ u.due := by
  induction ts generalizing t rest with
  | nil => simp [popEarliest] at h
  | cons a ts ih =>
    unfold popEarliest at h
    split at h
    · rename_i hn
      simp at h
      obtain ⟨rfl, rfl⟩ := h
      rw [popEarliest_eq_none hn]
      simp
    · rename_i u r hs
      have hu := ih hs
      split at h
      · rename_i hle
        simp at h
        obtain ⟨rfl, rfl⟩ := h
        intro x hx
        rcases List.mem_cons.1 hx with rfl | hx
        · exact le_refl _
        · exact le_trans hle (hu x hx)
      · rename_i hle
        simp at h
        obtain ⟨rfl, rfl⟩ := h
        intro x hx
        rcases List.mem_cons.1 hx with rfl | hx
        · omega
        · exact hu x hx

theorem popEarliest_mem {ts rest : List Timer} {t : Timer}
    (h : popEarliest ts = some (t, rest)) : ∀ u ∈ rest, u ∈ ts := by
  intro u hu
  exact (popEarliest_perm h).mem_iff.2 (List.mem_cons_of_mem _ hu)

theorem queueWeight_pop {ts rest : List Timer} {t : Timer}
    (h : popEarliest ts = some (t, rest)) : queueWeight ts = t.cb.weight + queueWeight rest := by
  unfold queueWeight
  rw [((popEarliest_perm h).map _).sum_eq]
  simp

theorem queueWeight_append (ts us : List Timer) :
    queueWeight (ts ++ us) = queueWeight ts + queueWeight us := by
  simp [queueWeight]

theorem popEarliest_filter_of_not (p : Timer → Bool) {ts rest : List Timer} {t : Timer}
    (h : popEarliest ts = some (t, rest)) (hp : p t = false) : rest.filter p = ts.filter p := by
  induction ts generalizing t rest with
  | nil => simp [popEarliest] at h
  | cons a ts ih =>
    unfold popEarliest at h
    split at h
    · rename_i hn
      simp at h
      obtain ⟨rfl, rfl⟩ := h
      rw [popEarliest_eq_none hn]
      simp [hp]
    · rename_i u r hs
      split at h
      · simp at h
        obtain ⟨rfl, rfl⟩ := h
        simp [hp]
      · simp at h
        obtain ⟨rfl, rfl⟩ := h
        simp [List.filter_cons, ih hs hp]

theorem popEarliest_filter_of_mem (p : Timer → Bool) {ts rest : List Timer} {t : Timer}
    (h : popEarliest ts = some (t, rest)) (hp : p t = true) :
    popEarliest (ts.filter p) = some (t, rest.filter p) := by
  induction ts generalizing t rest with
  | nil => simp [popEarliest] at h
  | cons a ts ih =>
    unfold popEarliest at h
    split at h
    · rename_i hn
      simp at h
      obtain ⟨rfl, rfl⟩ := h
      simp [popEarliest_eq_none hn, hp, popEarliest]
    · rename_i u r hs
      split at h
      · rename_i hle
        simp at h
        obtain ⟨rfl, rfl⟩ := h
        rw [List.filter_cons_of_pos hp]
        unfold popEarliest
        split
        · rename_i hn
          rw [popEarliest_eq_none hn]
        · rename_i v r2 hv
          have hv1 : v ∈ ts := by
            have := (popEarliest_perm hv).mem_iff.2 (List.mem_cons_self _ _)
            exact (List.mem_filter.1 this).1
          have hv2 := popEarliest_le hs v hv1
          rw [if_pos (le_trans hle hv2)]
      · rename_i hle
        simp at h
        obtain ⟨rfl, rfl⟩ := h
        have ih1 := ih hs hp
        by_cases hpa : p a = true
        · rw [List.filter_cons_of_pos hpa, List.filter_cons_of_pos hpa]
          unfold popEarliest
          rw [ih1]
          simp [hle]
        · rw [List.filter_cons_of_neg hpa, List.filter_cons_of_neg hpa]
          exact ih1

theorem fire_timers (t : Timer) (rest : List Timer) (s : Page) :
    ∃ us, (fire t rest s).timers = rest ++ us ∧ queueWeight us < t.cb.weight ∧
      ∀ u ∈ us, u.cb.resolves = false ∧ u.cb.isSubmitTimeout = false :=
  runCallback_timers t.cb { s with timers := rest, now := max s.now t.due }

theorem queueWeight_fire {s : Page} {t : Timer} {rest : List Timer}
    (h : popEarliest s.timers = some (t, rest)) :
    queueWeight (fire t rest s).timers < queueWeight s.timers := by
  rw [queueWeight_pop h]
  obtain ⟨us, h1, h2, -⟩ := fire_timers t rest s
  rw [h1, queueWeight_append]
  omega

theorem Callback.weight_pos (cb : Callback) : 1 ≤ cb.weight := by
  cases cb <;> simp [Callback.weight]

/-- After the due callbacks have run, every pending timer is due after the target. -/
theorem runDue_complete (fuel target : Nat) (s : Page) (hf : queueWeight s.timers ≤ fuel) :
    ∀ u ∈ (runDue fuel target s).timers, target < u.due := by
  induction fuel generalizing s with
  | zero =>
    have h0 : s.timers = [] := by
      cases hts : s.timers with
      | nil => rfl
      | cons a ts =>
        rw [hts] at hf
        have := a.cb.weight_pos
        simp [queueWeight] at hf
        omega
    simp [runDue, h0]
  | succ n ih =>
    unfold runDue
    split
    · rename_i hn
      simp [popEarliest_eq_none hn]
    · rename_i t rest hs
      split
      · have := queueWeight_fire hs
        exact ih _ (by omega)
      · rename_i hlt
        intro u hu
        have := popEarliest_le hs u hu
        omega

/-- A submission-timeout timer pending after a callback ran was pending before. -/
theorem fire_timeouts {s : Page} {t : Timer} {rest : List Timer}
    (h : popEarliest s.timers = some (t, rest)) :
    ∀ u ∈ (fire t rest s).timers, u.cb.isSubmitTimeout = true → u ∈ s.timers := by
  intro u hu hk
  obtain ⟨us, h1, -, h3⟩ := fire_timers t rest s
  rw [h1] at hu
  rcases List.mem_append.1 hu with hu | hu
  · exact popEarliest_mem h u hu
  · rw [(h3 u hu).2] at hk
    cases hk

theorem runDue_timeouts (fuel target : Nat) (s : Page) :
    ∀ u ∈ (runDue fuel target s).timers, u.cb.isSubmitTimeout = true → u ∈ s.timers := by
  induction fuel generalizing s with
  | zero => intro u hu _; exact hu
  | succ n ih =>
    unfold runDue
    split
    · intro u hu _; exact hu
    · rename_i t rest hs
      split
      · intro u hu hk
        exact fire_timeouts hs u (ih _ u hu hk) hk
      · intro u hu _; exact hu

theorem fire_keeps (t : Timer) (rest : List Timer) (s : Page) :
    ∀ u ∈ rest, u ∈ (fire t rest s).timers := by
  intro u hu
  obtain ⟨us, h1, -⟩ := fire_timers t rest s
  rw [h1]
  exact List.mem_append_left _ hu

/-- A timer that is not yet due is still pending after the due callbacks have run. -/
theorem runDue_keeps (fuel target : Nat) (s : Page) :
    ∀ u ∈ s.timers, target < u.due → u ∈ (runDue fuel target s).timers := by
  induction fuel generalizing s with
  | zero => intro u hu _; exact hu
  | succ n ih =>
    unfold runDue
    split
    · intro u hu _; exact hu
    · rename_i t rest hs
      split
      · rename_i hle
        intro u hu hlt
        have hmem : u ∈ t :: rest := (popEarliest_perm hs).mem_iff.1 hu
        rcases List.mem_cons.1 hmem with rfl | hmem
        · omega
        · exact ih _ u (fire_keeps t rest s u hmem) hlt
      · intro u hu _; exact hu

theorem runDue_config (fuel target : Nat) (s : Page) :
    (runDue fuel target s).topicValue = s.topicValue ∧
    (runDue fuel target s).modalShowMs = s.modalShowMs ∧
    (runDue fuel target s).modalHideMs = s.modalHideMs := by
  induction fuel generalizing s with
  | zero => exact ⟨rfl, rfl, rfl⟩
  | succ n ih =>
    unfold runDue
    split
    · exact ⟨rfl, rfl, rfl⟩
    · split
      · obtain ⟨h1, h2, h3⟩ := ih (fire _ _ s)
        obtain ⟨k1, k2, k3⟩ := runCallback_topicValue _ _
        exact ⟨h1.trans k1, h2.trans k2, h3.trans k3⟩
      · exact ⟨rfl, rfl, rfl⟩

theorem advance_config (dt : Nat) (s : Page) :
    (advance dt s).topicValue = s.topicValue ∧
    (advance dt s).modalShowMs = s.modalShowMs ∧
    (advance dt s).modalHideMs = s.modalHideMs :=
  runDue_config _ _ s

theorem onSubmit_of_empty (s : Page) (h : s.topicValue = "") :
    onSubmit s = showAlert validationMessage "warning" s := by
  simp [onSubmit, h]

theorem onSubmit_of_valid (s : Page) (h : s.topicValue ≠ "") :
    onSubmit s = setTimeout (Callback.submitTimeout s.topicValue) submitTimeoutMs
      { modalShow s with btnDisabled := true, btnHTML := busyLabel } := by
  simp [onSubmit, h]

/-! ## The timers that the handlers arm -/

/-- An event handler keeps the clock and the pending timers, and arms timers that are due
later than now; only a submission arms a submission-timeout timer. -/
theorem handle_timers (e : Event) (s : Page) (he : ∀ dt, e ≠ Event.advance dt) :
    (handle e s).now = s.now ∧
    ∃ us, (handle e s).timers = s.timers ++ us ∧
      ∀ u ∈ us, s.now < u.due ∧
        (u.cb.isSubmitTimeout = true → u.due = s.now + submitTimeoutMs ∧ e.isSubmission = true) := by
  have hchange : ∀ value : String, (onChange value s).now = s.now ∧
      ∃ us, (onChange value s).timers = s.timers ++ us ∧
        ∀ u ∈ us, s.now < u.due ∧ u.cb.isSubmitTimeout = false := by
    intro value
    refine ⟨by simp [onChange], ?_⟩
    rcases addTopicFeedback_timers (updateGenerateButton value { s with topicValue := value }) value
      with h1 | h1
    · exact ⟨[], by simpa [onChange] using h1, by simp⟩
    · refine ⟨[⟨s.now + feedbackFadeMs, Callback.feedbackFade s.nextId⟩],
        by simpa [onChange] using h1, ?_⟩
      simp [feedbackFadeMs, Callback.isSubmitTimeout]
  have hsubmit : (onSubmit s).now = s.now ∧
      ∃ us, (onSubmit s).timers = s.timers ++ us ∧
        ∀ u ∈ us, s.now < u.due ∧
          (u.cb.isSubmitTimeout = true → u.due = s.now + submitTimeoutMs) := by
    by_cases ht : s.topicValue = ""
    · rw [onSubmit_of_empty s ht]
      exact ⟨rfl, _, rfl, by simp [alertDismissMs, Callback.isSubmitTimeout]⟩
    · rw [onSubmit_of_valid s ht]
      refine ⟨by simp, ?_⟩
      rcases modalShow_timers s with h1 | ⟨h0, -, -, -, h1⟩
      · exact ⟨[⟨s.now + submitTimeoutMs, Callback.submitTimeout s.topicValue⟩],
          by simp [h1], by simp [submitTimeoutMs]⟩
      · refine ⟨[⟨s.now + s.modalShowMs, Callback.transitionEnd⟩,
          ⟨s.now + submitTimeoutMs, Callback.submitTimeout s.topicValue⟩], by simp [h1], ?_⟩
        intro u hu
        simp at hu
        rcases hu with rfl | rfl
        · exact ⟨by simpa using h0, fun hk => by simp [Callback.isSubmitTimeout] at hk⟩
        · exact ⟨by simp [submitTimeoutMs], fun _ => rfl⟩
  cases e with
  | change value =>
    obtain ⟨h1, us, h2, h3⟩ := hchange value
    exact ⟨h1, us, h2, fun u hu => ⟨(h3 u hu).1, fun hk => by simp [(h3 u hu).2] at hk⟩⟩
  | cardClick index =>
    simp only [handle, onCardClick]
    split
    · rename_i topic _
      obtain ⟨h1, us, h2, h3⟩ := hchange topic
      refine ⟨by simpa using h1, us ++ [⟨s.now + cardRestoreMs, Callback.cardRestore index⟩],
        by simp [h2, h1], ?_⟩
      intro u hu
      rcases List.mem_append.1 hu with hu | hu
      · exact ⟨(h3 u hu).1, fun hk => by simp [(h3 u hu).2] at hk⟩
      · simp at hu
        subst hu
        simp [cardRestoreMs, Callback.isSubmitTimeout]
    · exact ⟨rfl, [], by simp, by simp⟩
  | submit =>
    obtain ⟨h1, us, h2, h3⟩ := hsubmit
    exact ⟨h1, us, h2, fun u hu => ⟨(h3 u hu).1, fun hk => ⟨(h3 u hu).2 hk, rfl⟩⟩⟩
  | enterKey =>
    simp only [handle, onEnterKey]
    split
    · obtain ⟨h1, us, h2, h3⟩ := hsubmit
      exact ⟨h1, us, h2, fun u hu => ⟨(h3 u hu).1, fun hk => ⟨(h3 u hu).2 hk, rfl⟩⟩⟩
    · exact ⟨rfl, [], by simp, by simp⟩
  | focus =>
    exact ⟨rfl, _, rfl, by simp [settleDelayMs, Callback.isSubmitTimeout]⟩
  | advance dt => exact absurd rfl (he dt)

theorem quiet_advance (dt : Nat) (s : Page) : Quiet (advance dt s) := by
  intro u hu
  exact runDue_complete (queueWeight s.timers) (s.now + dt) s (le_refl _) u hu

theorem quiet_handle (e : Event) (s : Page) (hq : Quiet s) : Quiet (handle e s) := by
  by_cases he : ∃ dt, e = Event.advance dt
  · obtain ⟨dt, rfl⟩ := he
    exact quiet_advance dt s
  · obtain ⟨h1, us, h2, h3⟩ := handle_timers e s (fun dt h => he ⟨dt, h⟩)
    intro u hu
    rw [h2] at hu
    rw [h1]
    rcases List.mem_append.1 hu with hu | hu
    · exact hq u hu
    · exact (h3 u hu).1

theorem bounded_handle (e : Event) (s : Page) (hb : Bounded s) : Bounded (handle e s) := by
  by_cases he : ∃ dt, e = Event.advance dt
  · obtain ⟨dt, rfl⟩ := he
    intro u hu hk
    have h1 := hb u (runDue_timeouts _ _ s u hu hk) hk
    have h2 : (handle (Event.advance dt) s).now = s.now + dt := rfl
    omega
  · obtain ⟨h1, us, h2, h3⟩ := handle_timers e s (fun dt h => he ⟨dt, h⟩)
    intro u hu hk
    rw [h2] at hu
    rw [h1]
    rcases List.mem_append.1 hu with hu | hu
    · exact hb u hu hk
    · exact le_of_eq ((h3 u hu).2 hk).1

/-- Without a submission, no submission-timeout timer is armed. -/
theorem timeouts_handle (e : Event) (s : Page) (hs : e.isSubmission = false) :
    ∀ u ∈ (handle e s).timers, u.cb.isSubmitTimeout = true → u ∈ s.timers := by
  by_cases he : ∃ dt, e = Event.advance dt
  · obtain ⟨dt, rfl⟩ := he
    intro u hu hk
    exact runDue_timeouts _ _ s u hu hk
  · obtain ⟨-, us, h2, h3⟩ := handle_timers e s (fun dt h => he ⟨dt, h⟩)
    intro u hu hk
    rw [h2] at hu
    rcases List.mem_append.1 hu with hu | hu
    · exact hu
    · have := ((h3 u hu).2 hk).2
      rw [hs] at this
      cases this

theorem now_handle (e : Event) (s : Page) : (handle e s).now = s.now + elapsed [e] := by
  by_cases he : ∃ dt, e = Event.advance dt
  · obtain ⟨dt, rfl⟩ := he
    rfl
  · rw [(handle_timers e s (fun dt h => he ⟨dt, h⟩)).1]
    cases e <;> simp [elapsed]
    exact absurd ⟨_, rfl⟩ he

theorem quiet_run (es : List Event) (s : Page) (hq : Quiet s) : Quiet (run es s) := by
  induction es generalizing s with
  | nil => exact hq
  | cons e es ih => exact ih _ (quiet_handle e s hq)

theorem bounded_run (es : List Event) (s : Page) (hb : Bounded s) : Bounded (run es s) := by
  induction es generalizing s with
  | nil => exact hb
  | cons e es ih => exact ih _ (bounded_handle e s hb)

theorem run_append (es fs : List Event) (s : Page) : run (es ++ fs) s = run fs (run es s) := by
  induction es generalizing s with
  | nil => rfl
  | cons e es ih => exact ih _

theorem reachable_run {s : Page} (h : Reachable s) (es : List Event) : Reachable (run es s) := by
  obtain ⟨s0, fs, h0, rfl⟩ := h
  exact ⟨s0, fs ++ es, h0, (run_append fs es s0).symm⟩

theorem quiet_of_reachable {s : Page} (h : Reachable s) : Quiet s := by
  obtain ⟨s0, es, h0, rfl⟩ := h
  refine quiet_run es s0 ?_
  intro u hu
  rw [h0.1] at hu
  cases hu

theorem bounded_of_reachable {s : Page} (h : Reachable s) : Bounded s := by
  obtain ⟨s0, es, h0, rfl⟩ := h
  refine bounded_run es s0 ?_
  intro u hu
  rw [h0.1] at hu
  cases hu

/-! ## A shown modal has its timeout pending -/

theorem tracked_of_append {s s' : Page} (ht : Tracked s)
    (hm : s'.modalShown = s.modalShown) (hx : s'.modalTransitioning = s.modalTransitioning)
    (hc : s'.modalShowMs = s.modalShowMs) (hq : ∃ us, s'.timers = s.timers ++ us) :
    Tracked s' := by
  obtain ⟨us, hq⟩ := hq
  constructor
  · rw [hc]; exact ht.show_lt
  · intro h
    obtain ⟨t, ht1, ht2, ht3⟩ := ht.armed_timer (hm ▸ h)
    refine ⟨t, by rw [hq]; exact List.mem_append_left _ ht1, ht2, fun hx' => ?_⟩
    obtain ⟨u, hu1, hu2, hu3⟩ := ht3 (hx ▸ hx')
    exact ⟨u, by rw [hq]; exact List.mem_append_left _ hu1, hu2, hu3⟩

theorem mem_rest_of_ne {ts rest : List Timer} {p t : Timer}
    (h : popEarliest ts = some (p, rest)) (ht : t ∈ ts) (hne : t ≠ p) : t ∈ rest := by
  rcases List.mem_cons.1 ((popEarliest_perm h).mem_iff.1 ht) with h1 | h1
  · exact absurd h1 hne
  · exact h1

theorem tracked_runCallback {s : Page} {p : Timer} {rest : List Timer} (ht : Tracked s)
    (h : popEarliest s.timers = some (p, rest)) (s0 : Page) (h1 : s0.timers = rest)
    (h2 : s0.modalShown = s.modalShown) (h3 : s0.modalTransitioning = s.modalTransitioning)
    (h4 : s0.modalShowMs = s.modalShowMs) : Tracked (runCallback p.cb s0) := by
  have hlt : s0.modalShowMs < submitTimeoutMs := by rw [h4]; exact ht.show_lt
  by_cases hr : p.cb.resolves = true
  · by_cases hm : s0.modalShown = true
    · obtain ⟨-, -, k3, k4, k5, -, k7, -⟩ := runCallback_shown p.cb s0 hr hm
      by_cases hx : s0.modalTransitioning = true
      · rw [modalHide_of_ignored s0 (Or.inr hx)] at k3 k4 k5
        obtain ⟨t, ht1, ht2, ht3⟩ := ht.armed_timer (h2 ▸ hm)
        obtain ⟨u, hu1, hu2, hu3⟩ := ht3 (h3 ▸ hx)
        have hpu := popEarliest_le h u hu1
        have htp : t ≠ p := by
          intro heq
          rw [heq] at hu3
          omega
        have hup : u ≠ p := by
          intro heq
          rw [heq] at hu2
          rw [hu2] at hr
          simp [Callback.resolves] at hr
        refine ⟨by rw [k7]; exact hlt, fun _ => ⟨t, ?_, ht2, fun _ => ⟨u, ?_, hu2, hu3⟩⟩⟩
        · rw [k5]
          exact List.mem_append_left _ (h1 ▸ mem_rest_of_ne h ht1 htp)
        · rw [k5]
          exact List.mem_append_left _ (h1 ▸ mem_rest_of_ne h hu1 hup)
      · refine ⟨by rw [k7]; exact hlt, fun h' => ?_⟩
        rw [k3, modalHide_modalShown s0 hm (by simpa using hx)] at h'
        cases h'
    · have hm' : s0.modalShown = false := by simpa using hm
      rw [runCallback_idle p.cb s0 hr hm']
      exact ⟨hlt, fun h' => absurd h' hm⟩
  · have hr' : p.cb.resolves = false := by simpa using hr
    obtain ⟨k1, -, -, k4, -, k6, -, -, k9⟩ := runCallback_of_not_resolves p.cb s0 hr'
    refine ⟨by rw [k6]; exact hlt, fun h' => ?_⟩
    rw [k1, h2] at h'
    obtain ⟨t, ht1, ht2, ht3⟩ := ht.armed_timer h'
    have htp : t ≠ p := by
      intro heq
      rw [heq] at ht2
      cases hcb : p.cb <;> simp [hcb, Callback.resolves, Callback.isSubmitTimeout] at hr' ht2
    refine ⟨t, by rw [k4, h1]; exact mem_rest_of_ne h ht1 htp, ht2, fun hx' => ?_⟩
    rw [k9] at hx'
    by_cases hpe : p.cb = Callback.transitionEnd
    · simp [hpe] at hx'
    · simp only [if_neg hpe] at hx'
      obtain ⟨u, hu1, hu2, hu3⟩ := ht3 (h3 ▸ hx')
      have hup : u ≠ p := by
        intro heq
        rw [heq] at hu2
        exact hpe hu2
      exact ⟨u, by rw [k4, h1]; exact mem_rest_of_ne h hu1 hup, hu2, hu3⟩

theorem tracked_fire {s : Page} {p : Timer} {rest : List Timer} (ht : Tracked s)
    (h : popEarliest s.timers = some (p, rest)) : Tracked (fire p rest s) :=
  tracked_runCallback ht h _ rfl rfl rfl rfl

theorem tracked_runDue (fuel target : Nat) (s : Page) (ht : Tracked s) :
    Tracked (runDue fuel target s) := by
  induction fuel generalizing s with
  | zero => exact ht
  | succ n ih =>
    unfold runDue
    split
    · exact ht
    · rename_i t rest hs
      split
      · exact ih _ (tracked_fire ht hs)
      · exact ht

theorem tracked_advance (dt : Nat) (s : Page) (ht : Tracked s) : Tracked (advance dt s) := by
  obtain ⟨h1, h2⟩ := tracked_runDue (queueWeight s.timers) (s.now + dt) s ht
  exact ⟨h1, h2⟩

theorem tracked_onChange (value : String) (s : Page) (ht : Tracked s) :
    Tracked (onChange value s) := by
  refine tracked_of_append ht (by simp [onChange]) (by simp [onChange]) (by simp [onChange]) ?_
  rcases addTopicFeedback_timers (updateGenerateButton value { s with topicValue := value }) value
    with h1 | h1
  · exact ⟨[], by simpa [onChange] using h1⟩
  · exact ⟨_, by simpa [onChange] using h1⟩

theorem tracked_onSubmit (s : Page) (ht : Tracked s) : Tracked (onSubmit s) := by
  by_cases htv : s.topicValue = ""
  · rw [onSubmit_of_empty s htv]
    exact tracked_of_append ht rfl rfl rfl ⟨_, rfl⟩
  · rw [onSubmit_of_valid s htv]
    by_cases hb : s.modalShown = true ∨ s.modalTransitioning = true
    · rw [modalShow_of_busy s hb]
      exact tracked_of_append ht rfl rfl rfl ⟨_, rfl⟩
    · simp only [not_or, Bool.not_eq_true] at hb
      rw [modalShow_of_rest s hb.1 hb.2]
      have hlt := ht.show_lt
      split
      · refine ⟨hlt, fun _ => ⟨⟨s.now + submitTimeoutMs, Callback.submitTimeout s.topicValue⟩,
          by simp, rfl, fun hx => ?_⟩⟩
        simp [hb.2] at hx
      · refine ⟨hlt, fun _ => ⟨⟨s.now + submitTimeoutMs, Callback.submitTimeout s.topicValue⟩,
          by simp, rfl, fun _ => ⟨⟨s.now + s.modalShowMs, Callback.transitionEnd⟩,
            by simp, rfl, ?_⟩⟩⟩
        show s.now + s.modalShowMs < s.now + submitTimeoutMs
        omega

theorem tracked_handle (e : Event) (s : Page) (ht : Tracked s) : Tracked (handle e s) := by
  cases e with
  | change value => exact tracked_onChange value s ht
  | cardClick index =>
    simp only [handle, onCardClick]
    split
    · rename_i topic _
      exact tracked_of_append (tracked_onChange topic s ht) rfl rfl rfl ⟨_, rfl⟩
    · exact ht
  | submit => exact tracked_onSubmit s ht
  | enterKey =>
    simp only [handle, onEnterKey]
    split
    · exact tracked_onSubmit s ht
    · exact ht
  | focus => exact tracked_of_append ht rfl rfl rfl ⟨_, rfl⟩
  | advance dt => exact tracked_advance dt s ht

theorem tracked_run (es : List Event) (s : Page) (ht : Tracked s) : Tracked (run es s) := by
  induction es generalizing s with
  | nil => exact ht
  | cons e es ih => exact ih _ (tracked_handle e s ht)

theorem tracked_of_reachable {s : Page} (h : Reachable s) : Tracked s := by
  obtain ⟨s0, es, h0, rfl⟩ := h
  refine tracked_run es s0 ⟨h0.2.2.2.2, fun h' => ?_⟩
  rw [h0.2.1] at h'
  cases h'

/-! ## Which callback resolves a submission -/

theorem transitionBy_fire {s : Page} {p : Timer} {rest : List Timer} {bound : Nat}
    (hb : TransitionBy bound s) (h : popEarliest s.timers = some (p, rest))
    (hr : p.cb.resolves = false) : TransitionBy bound (fire p rest s) := by
  obtain ⟨-, -, -, k4, -, -, -, -, k9⟩ :=
    runCallback_of_not_resolves p.cb { s with timers := rest, now := max s.now p.due } hr
  intro hx
  have hx' : (if p.cb = Callback.transitionEnd then false else s.modalTransitioning) = true :=
    k9 ▸ hx
  by_cases hpe : p.cb = Callback.transitionEnd
  · simp [hpe] at hx'
  · simp only [if_neg hpe] at hx'
    obtain ⟨u, hu1, hu2, hu3⟩ := hb hx'
    have hup : u ≠ p := by
      intro heq
      rw [heq] at hu2
      exact hpe hu2
    refine ⟨u, ?_, hu2, hu3⟩
    show u ∈ (fire p rest s).timers
    unfold fire
    rw [k4]
    exact mem_rest_of_ne h hu1 hup

theorem fire_of_not_resolves {s : Page} {p : Timer} {rest : List Timer}
    (h : popEarliest s.timers = some (p, rest)) (hr : p.cb.resolves = false) :
    (fire p rest s).modalShown = s.modalShown ∧
    (fire p rest s).btnDisabled = s.btnDisabled ∧
    (fire p rest s).log = s.log ∧
    resolvers (fire p rest s) = resolvers s ∧
    ((fire p rest s).modalTransitioning = true → s.modalTransitioning = true) := by
  obtain ⟨k1, k2, k3, k4, -, -, -, -, k9⟩ :=
    runCallback_of_not_resolves p.cb { s with timers := rest, now := max s.now p.due } hr
  refine ⟨k1, k2, k3, ?_, fun hx => ?_⟩
  · unfold resolvers fire
    rw [k4]
    exact popEarliest_filter_of_not (fun u => u.cb.resolves) h hr
  · have hx' : (if p.cb = Callback.transitionEnd then false else s.modalTransitioning) = true :=
      k9 ▸ hx
    by_cases hpe : p.cb = Callback.transitionEnd
    · simp [hpe] at hx'
    · simpa only [if_neg hpe] using hx'

/-- While no resolving callback is due, the passing of time leaves the tracker, the log and
the pending resolving callbacks alone, and starts no transition of the modal. -/
theorem runDue_of_none_due (fuel target : Nat) (s : Page)
    (h : ∀ t ∈ resolvers s, target < t.due) :
    (runDue fuel target s).modalShown = s.modalShown ∧
    (runDue fuel target s).btnDisabled = s.btnDisabled ∧
    (runDue fuel target s).log = s.log ∧
    resolvers (runDue fuel target s) = resolvers s ∧
    ((runDue fuel target s).modalTransitioning = true → s.modalTransitioning = true) ∧
    ∀ bound, TransitionBy bound s → TransitionBy bound (runDue fuel target s) := by
  induction fuel generalizing s with
  | zero => exact ⟨rfl, rfl, rfl, rfl, id, fun _ hb => hb⟩
  | succ n ih =>
    unfold runDue
    split
    · exact ⟨rfl, rfl, rfl, rfl, id, fun _ hb => hb⟩
    · rename_i t rest hs
      split
      · rename_i hle
        have ht : t.cb.resolves = false := by
          by_contra hc
          have hmem : t ∈ resolvers s :=
            List.mem_filter.2
              ⟨(popEarliest_perm hs).mem_iff.2 (List.mem_cons_self _ _), by simpa using hc⟩
          have := h t hmem
          omega
        obtain ⟨h1, h2, h3, h4, h5⟩ := fire_of_not_resolves hs ht
        obtain ⟨k1, k2, k3, k4, k5, k6⟩ := ih (fire t rest s) (by rw [h4]; exact h)
        exact ⟨k1.trans h1, k2.trans h2, k3.trans h3, k4.trans h4, fun hx => h5 (k5 hx),
          fun bound hb => k6 bound (transitionBy_fire hb hs ht)⟩
      · exact ⟨rfl, rfl, rfl, rfl, id, fun _ hb => hb⟩

/-- When a resolving callback is due while the modal is shown, and the transition of the
modal, if one runs, ends before every pending resolving callback is due, the earliest of
them (the one registered first among equals) resolves the submission: the modal takes its
call of `hide()`, and nothing else is rendered. -/
theorem runDue_of_due (fuel target bound : Nat) (s : Page) (r : Timer) (rs : List Timer)
    (hf : queueWeight s.timers ≤ fuel) (hm : s.modalShown = true)
    (hb : TransitionBy bound s) (hq : ∀ q ∈ resolvers s, bound < q.due)
    (hr : popEarliest (resolvers s) = some (r, rs)) (hd : r.due ≤ target) :
    (runDue fuel target s).modalShown = false ∧
    (runDue fuel target s).btnDisabled = false ∧
    (runDue fuel target s).log = s.log ++ [Render.modalHide, r.cb.notice] := by
  have hrres : r ∈ resolvers s := (popEarliest_perm hr).mem_iff.2 (List.mem_cons_self _ _)
  have hrmem : r ∈ s.timers := (List.mem_filter.1 hrres).1
  induction fuel generalizing s with
  | zero =>
    have hw := r.cb.weight_pos
    have : queueWeight s.timers = r.cb.weight + queueWeight (s.timers.erase r) := by
      unfold queueWeight
      rw [((List.perm_cons_erase hrmem).map _).sum_eq]
      simp
    omega
  | succ n ih =>
    unfold runDue
    split
    · rename_i hn
      rw [popEarliest_eq_none hn] at hrmem
      cases hrmem
    · rename_i t rest hs
      have htr := popEarliest_le hs r hrmem
      rw [if_pos (le_trans htr hd)]
      have hw := queueWeight_fire hs
      by_cases ht : t.cb.resolves = true
      · have heq := popEarliest_filter_of_mem (fun u => u.cb.resolves) hs ht
        have hrt : r = t := by
          unfold resolvers at hr
          rw [heq] at hr
          simp at hr
          exact hr.1.symm
        subst hrt
        have hx : s.modalTransitioning = false := by
          cases hx : s.modalTransitioning
          · rfl
          · obtain ⟨u, hu1, -, hu3⟩ := hb hx
            have h1 := popEarliest_le hs u hu1
            have h2 := hq r hrres
            omega
        obtain ⟨h1, h2, h3, -⟩ :=
          runCallback_shown r.cb { s with timers := rest, now := max s.now r.due } ht hm
        have h4 : (fire r rest s).modalShown = false := by
          unfold fire
          rw [h3]
          exact modalHide_modalShown _ hm hx
        obtain ⟨k1, k2, k3⟩ := stays_runDue n target (fire r rest s) h4
        exact ⟨k1, k2.trans h1, k3.trans h2⟩
      · have ht' : t.cb.resolves = false := by simpa using ht
        obtain ⟨h1, -, h3, h4, -⟩ := fire_of_not_resolves hs ht'
        have hres : r ∈ resolvers (fire t rest s) := by rw [h4]; exact hrres
        obtain ⟨k1, k2, k3⟩ := ih (fire t rest s) (by omega) (h1.trans hm)
          (transitionBy_fire hb hs ht') (by rw [h4]; exact hq) (by rw [h4]; exact hr) hres
          (List.mem_filter.1 hres).1
        exact ⟨k1, k2, by rw [k3, h3]⟩

/-! ## The passing of time -/

theorem advance_of_none_due (dt : Nat) (s : Page) (h : ∀ t ∈ resolvers s, s.now + dt < t.due) :
    (advance dt s).modalShown = s.modalShown ∧
    (advance dt s).btnDisabled = s.btnDisabled ∧
    (advance dt s).log = s.log ∧
    resolvers (advance dt s) = resolvers s ∧
    (advance dt s).now = s.now + dt ∧
    (advance dt s).topicValue = s.topicValue ∧
    (advance dt s).modalShowMs = s.modalShowMs ∧
    ((advance dt s).modalTransitioning = true → s.modalTransitioning = true) ∧
    ∀ bound, TransitionBy bound s → TransitionBy bound (advance dt s) := by
  obtain ⟨h1, h2, h3, h4, h5, h6⟩ := runDue_of_none_due (queueWeight s.timers) (s.now + dt) s h
  exact ⟨h1, h2, h3, h4, rfl, (advance_config dt s).1, (advance_config dt s).2.1, h5, h6⟩

theorem advance_of_due (dt bound : Nat) (s : Page) (r : Timer) (rs : List Timer)
    (hm : s.modalShown = true) (hb : TransitionBy bound s)
    (hq : ∀ q ∈ resolvers s, bound < q.due)
    (hr : popEarliest (resolvers s) = some (r, rs)) (hd : r.due ≤ s.now + dt) :
    (advance dt s).modalShown = false ∧
    (advance dt s).btnDisabled = false ∧
    (advance dt s).log = s.log ++ [Render.modalHide, r.cb.notice] :=
  runDue_of_due (queueWeight s.timers) (s.now + dt) bound s r rs (le_refl _) hm hb hq hr hd

theorem resolvers_onSubmit (s : Page) (h : s.topicValue ≠ "") :
    resolvers (onSubmit s)
      = resolvers s ++ [⟨s.now + submitTimeoutMs, Callback.submitTimeout s.topicValue⟩] := by
  rw [onSubmit_of_valid s h]
  rcases modalShow_timers s with h1 | ⟨-, -, -, -, h1⟩
  · simp [resolvers, h1, List.filter_append, Callback.resolves]
  · simp [resolvers, h1, List.filter_append, Callback.resolves]

theorem resolvers_onFocus (s : Page) :
    resolvers (onFocus s) = resolvers s ++ [⟨s.now + settleDelayMs, Callback.focusSettle⟩] := by
  simp [resolvers, onFocus, List.filter_append, Callback.resolves]

/-- A submit event with a topic on a page whose modal is hidden and at rest. -/
theorem onSubmit_at_rest (s : Page) (h1 : s.modalShown = false)
    (h2 : s.modalTransitioning = false) (ht : s.topicValue ≠ "") :
    (onSubmit s).modalShown = true ∧
    (onSubmit s).btnDisabled = true ∧
    (onSubmit s).log = s.log ++ [Render.modalShow] ∧
    (onSubmit s).now = s.now ∧
    (onSubmit s).topicValue = s.topicValue ∧
    (onSubmit s).modalShowMs = s.modalShowMs ∧
    TransitionBy (s.now + s.modalShowMs) (onSubmit s) := by
  rw [onSubmit_of_valid s ht]
  refine ⟨modalShow_modalShown s h1 h2, rfl, by simp, by simp, by simp, by simp, ?_⟩
  intro hx
  have hx' : (modalShow s).modalTransitioning = true := hx
  rw [modalShow_of_rest s h1 h2] at hx' ⊢
  split at hx'
  · simp [h2] at hx'
  · rename_i hne
    rw [if_neg hne]
    exact ⟨⟨s.now + s.modalShowMs, Callback.transitionEnd⟩, by simp, rfl, le_refl _⟩

/-! ## Cycles -/

/-- A submission made while the modal is hidden and at rest and no resolving callback is
pending, with no focus event after it: the tracker stays Armed until the timeout callback of
the submission runs, which hides the modal. -/
theorem cycle_without_focus (s : Page) (f : Nat) (hi : s.modalShown = false)
    (hx : s.modalTransitioning = false) (hr : resolvers s = []) (ht : s.topicValue ≠ "")
    (hs : s.modalShowMs < submitTimeoutMs) :
    (f < submitTimeoutMs →
      (run [Event.submit, Event.advance f] s).modalShown = true ∧
      (run [Event.submit, Event.advance f] s).log = s.log ++ [Render.modalShow]) ∧
    (submitTimeoutMs ≤ f →
      (run [Event.submit, Event.advance f] s).modalShown = false ∧
      (run [Event.submit, Event.advance f] s).btnDisabled = false ∧
      (run [Event.submit, Event.advance f] s).log
        = s.log ++ [Render.modalShow, Render.modalHide, timedOutNotice]) := by
  have h1 := resolvers_onSubmit s ht
  rw [hr, List.nil_append] at h1
  obtain ⟨h2, -, h3, h4, -, -, h7⟩ := onSubmit_at_rest s hi hx ht
  constructor
  · intro hf
    obtain ⟨k1, -, k3, -⟩ := advance_of_none_due f (onSubmit s) (by
      intro t htm
      rw [h1] at htm
      simp at htm
      subst htm
      simp only [h4]
      omega)
    exact ⟨k1.trans h2, k3.trans h3⟩
  · intro hf
    obtain ⟨k1, k2, k3⟩ := advance_of_due f (s.now + s.modalShowMs) (onSubmit s) _ [] h2 h7 (by
      intro q hq
      rw [h1] at hq
      simp at hq
      subst hq
      show s.now + s.modalShowMs < s.now + submitTimeoutMs
      omega) (by rw [h1]; rfl) (by
      simp only [h4]
      omega)
    refine ⟨k1, k2, ?_⟩
    show (advance f (onSubmit s)).log = _
    rw [k3, h3]
    simp [Callback.notice]

/-- A submission made while the modal is hidden and at rest and no resolving callback is
pending, with one focus event `f` ms after it, and a show transition shorter than the settle
delay: the callback that is due first renders the one notice of the cycle. -/
theorem cycle_with_focus (s : Page) (f g : Nat) (hi : s.modalShown = false)
    (hx : s.modalTransitioning = false) (hr : resolvers s = []) (ht : s.topicValue ≠ "")
    (hs : s.modalShowMs < settleDelayMs) (hfg : submitTimeoutMs ≤ f + g) :
    (run [Event.submit, Event.advance f, Event.focus, Event.advance g] s).modalShown = false ∧
    (run [Event.submit, Event.advance f, Event.focus, Event.advance g] s).btnDisabled = false ∧
    (run [Event.submit, Event.advance f, Event.focus, Event.advance g] s).log
      = s.log ++ [Render.modalShow, Render.modalHide,
          if f + settleDelayMs < submitTimeoutMs then successNotice else timedOutNotice] := by
  have hsd : settleDelayMs < submitTimeoutMs := by decide
  have h1 := resolvers_onSubmit s ht
  rw [hr, List.nil_append] at h1
  obtain ⟨h2, -, h3, h4, -, -, h7⟩ := onSubmit_at_rest s hi hx ht
  show (advance g (onFocus (advance f (onSubmit s)))).modalShown = false ∧
    (advance g (onFocus (advance f (onSubmit s)))).btnDisabled = false ∧
    (advance g (onFocus (advance f (onSubmit s)))).log = _
  by_cases hf : f < submitTimeoutMs
  · obtain ⟨k1, -, k3, k4, k5, -, -, -, k9⟩ := advance_of_none_due f (onSubmit s) (by
      intro t htm
      rw [h1] at htm
      simp at htm
      subst htm
      simp only [h4]
      omega)
    have m1 : (onFocus (advance f (onSubmit s))).modalShown = true := k1.trans h2
    have m2 : (onFocus (advance f (onSubmit s))).log = s.log ++ [Render.modalShow] := k3.trans h3
    have m3 : (onFocus (advance f (onSubmit s))).now = s.now + f := k5.trans (by rw [h4])
    have m4 : resolvers (onFocus (advance f (onSubmit s)))
        = [⟨s.now + submitTimeoutMs, Callback.submitTimeout s.topicValue⟩,
           ⟨s.now + f + settleDelayMs, Callback.focusSettle⟩] := by
      rw [resolvers_onFocus, k4, h1, k5, h4]
      rfl
    have m5 : TransitionBy (s.now + s.modalShowMs) (onFocus (advance f (onSubmit s))) := by
      intro hx'
      obtain ⟨u, hu1, hu2, hu3⟩ := k9 _ h7 hx'
      exact ⟨u, List.mem_append_left _ hu1, hu2, hu3⟩
    have m6 : ∀ q ∈ resolvers (onFocus (advance f (onSubmit s))),
        s.now + s.modalShowMs < q.due := by
      intro q hq
      rw [m4] at hq
      simp at hq
      rcases hq with rfl | rfl
      · show s.now + s.modalShowMs < s.now + submitTimeoutMs
        omega
      · show s.now + s.modalShowMs < s.now + f + settleDelayMs
        omega
    by_cases hlt : f + settleDelayMs < submitTimeoutMs
    · obtain ⟨n1, n2, n3⟩ := advance_of_due g _ _ ⟨s.now + f + settleDelayMs, Callback.focusSettle⟩
        [⟨s.now + submitTimeoutMs, Callback.submitTimeout s.topicValue⟩] m1 m5 m6 (by
          rw [m4]
          have hc : ¬ (s.now + submitTimeoutMs ≤ s.now + f + settleDelayMs) := by omega
          simp only [popEarliest]
          exact if_neg hc) (by rw [m3]; show s.now + f + settleDelayMs ≤ s.now + f + g; omega)
      refine ⟨n1, n2, ?_⟩
      rw [n3, m2, if_pos hlt]
      simp [Callback.notice]
    · obtain ⟨n1, n2, n3⟩ := advance_of_due g _ _
        ⟨s.now + submitTimeoutMs, Callback.submitTimeout s.topicValue⟩
        [⟨s.now + f + settleDelayMs, Callback.focusSettle⟩] m1 m5 m6 (by
          rw [m4]
          have hc : s.now + submitTimeoutMs ≤ s.now + f + settleDelayMs := by omega
          simp only [popEarliest]
          exact if_pos hc) (by rw [m3]; show s.now + submitTimeoutMs ≤ s.now + f + g; omega)
      refine ⟨n1, n2, ?_⟩
      rw [n3, m2, if_neg hlt]
      simp [Callback.notice]
  · obtain ⟨k1, k2, k3⟩ := advance_of_due f (s.now + s.modalShowMs) (onSubmit s) _ [] h2 h7 (by
      intro q hq
      rw [h1] at hq
      simp at hq
      subst hq
      show s.now + s.modalShowMs < s.now + submitTimeoutMs
      omega) (by rw [h1]; rfl) (by
      simp only [h4]
      omega)
    have m1 : (onFocus (advance f (onSubmit s))).modalShown = false := k1
    obtain ⟨n1, n2, n3⟩ := stays_advance g (onFocus (advance f (onSubmit s))) m1
    refine ⟨n1, n2.trans k2, ?_⟩
    rw [n3]
    show (advance f (onSubmit s)).log = _
    rw [k3, h3, if_neg (by omega)]
    simp [Callback.notice]

/-- A focus event `d` ms before a submission, on a page whose modal is hidden and at rest
with no resolving callback pending: when the show transition of the submission has ended
before the settle delay of the focus event elapses, the settle callback finds the modal
shown and resolves the submission. -/
theorem focus_before_submit (s : Page) (d g : Nat) (hi : s.modalShown = false)
    (hx : s.modalTransitioning = false) (hr : resolvers s = []) (ht : s.topicValue ≠ "")
    (hd : d + s.modalShowMs < settleDelayMs) (hg : settleDelayMs ≤ d + g) :
    (run [Event.focus, Event.advance d, Event.submit, Event.advance g] s).modalShown = false ∧
    (run [Event.focus, Event.advance d, Event.submit, Event.advance g] s).btnDisabled = false ∧
    (run [Event.focus, Event.advance d, Event.submit, Event.advance g] s).log
      = s.log ++ [Render.modalShow, Render.modalHide, successNotice] := by
  have hsd : settleDelayMs < submitTimeoutMs := by decide
  show (advance g (onSubmit (advance d (onFocus s)))).modalShown = false ∧
    (advance g (onSubmit (advance d (onFocus s)))).btnDisabled = false ∧
    (advance g (onSubmit (advance d (onFocus s)))).log = _
  have h1 := resolvers_onFocus s
  rw [hr, List.nil_append] at h1
  obtain ⟨k1, -, k3, k4, k5, k6, k7, k8, -⟩ := advance_of_none_due d (onFocus s) (by
    intro t htm
    rw [h1] at htm
    simp at htm
    subst htm
    show s.now + d < s.now + settleDelayMs
    omega)
  have hi2 : (advance d (onFocus s)).modalShown = false := k1.trans hi
  have hx2 : (advance d (onFocus s)).modalTransitioning = false := by
    cases hc : (advance d (onFocus s)).modalTransitioning
    · rfl
    · have := k8 hc
      rw [show (onFocus s).modalTransitioning = s.modalTransitioning from rfl, hx] at this
      cases this
  have ht2 : (advance d (onFocus s)).topicValue ≠ "" := by rw [k6]; exact ht
  have hk5 : (advance d (onFocus s)).now = s.now + d := k5
  have hk7 : (advance d (onFocus s)).modalShowMs = s.modalShowMs := k7
  obtain ⟨m1, -, m2, m3, -, -, m7⟩ := onSubmit_at_rest _ hi2 hx2 ht2
  rw [hk5, hk7] at m7
  have m4 : resolvers (onSubmit (advance d (onFocus s)))
      = [⟨s.now + settleDelayMs, Callback.focusSettle⟩,
         ⟨s.now + d + submitTimeoutMs, Callback.submitTimeout s.topicValue⟩] := by
    rw [resolvers_onSubmit _ ht2, k4, h1, hk5, k6]
    rfl
  obtain ⟨n1, n2, n3⟩ := advance_of_due g _ _ ⟨s.now + settleDelayMs, Callback.focusSettle⟩
    [⟨s.now + d + submitTimeoutMs, Callback.submitTimeout s.topicValue⟩] m1 m7 (by
      intro q hq
      rw [m4] at hq
      simp at hq
      rcases hq with rfl | rfl
      · show s.now + d + s.modalShowMs < s.now + settleDelayMs
        omega
      · show s.now + d + s.modalShowMs < s.now + d + submitTimeoutMs
        omega) (by
      rw [m4]
      have hc : s.now + settleDelayMs ≤ s.now + d + submitTimeoutMs := by omega
      simp only [popEarliest]
      exact if_pos hc)
    (by rw [m3, hk5]; show s.now + settleDelayMs ≤ s.now + d + g; omega)
  refine ⟨n1, n2, ?_⟩
  rw [n3, m2, k3]
  simp [Callback.notice]
  rfl

/-! ## Timers are not cancelled -/

theorem handle_keeps (e : Event) (s : Page) :
    ∀ u ∈ s.timers, s.now + elapsed [e] < u.due → u ∈ (handle e s).timers := by
  intro u hu hlt
  by_cases he : ∃ dt, e = Event.advance dt
  · obtain ⟨dt, rfl⟩ := he
    exact runDue_keeps _ _ s u hu (by simpa [elapsed] using hlt)
  · obtain ⟨-, us, h2, -⟩ := handle_timers e s (fun dt h => he ⟨dt, h⟩)
    rw [h2]
    exact List.mem_append_left _ hu

/-! ## The claims -/

/-- C1, as the claim states it, fails. "ABC" is submitted at 0 ms and resolved by the settle
callback of a focus event at 2500 ms, with the success notice; a second submission is made at
20000 ms from the Idle page and a focus event occurs at 29000 ms. At 30000 ms the timeout
callback of the first submission runs on the Armed page and renders a timed-out notice:
a timed-out notice after the settle callback of the first cycle had run first; and the only
notice of the second cycle is the timed-out one, although its settle callback (31000 ms) runs
before its own timeout callback (50000 ms). -/
theorem race_with_stale_timeout :
    (run refocusCycle freshPage).now = 2500 ∧
    Idle (run refocusCycle freshPage) ∧
    (run refocusCycle freshPage).log = [Render.modalShow, Render.modalHide, successNotice] ∧
    Armed (run (staleRace 999) freshPage) ∧
    (run (staleRace 999) freshPage).log
      = [Render.modalShow, Render.modalHide, successNotice, Render.modalShow] ∧
    (run (staleRace 1000) freshPage).now = 30000 ∧
    Idle (run (staleRace 1000) freshPage) ∧
    (run (staleRace 1000) freshPage).log
      = [Render.modalShow, Render.modalHide, successNotice, Render.modalShow,
          Render.modalHide, timedOutNotice] ∧
    (run (staleRace 21000) freshPage).now = 50000 ∧
    (run (staleRace 21000) freshPage).timers = [] ∧
    (run (staleRace 21000) freshPage).log
      = [Render.modalShow, Render.modalHide, successNotice, Render.modalShow,
          Render.modalHide, timedOutNotice] := by
  refine ⟨?_, ?_, ?_, ?_, ?_, ?_, ?_, ?_, ?_, ?_, ?_⟩ <;> decide

/-- C1 (as amended): a submit event with a topic on a page whose modal is hidden and at rest,
with no timeout or settle callback pending and a show transition shorter than the 2000 ms
settle delay, then one focus event `f` ms later and nothing but the passing of time until the
30000 ms of the submission have passed: the page is Idle with the button enabled and exactly
one outcome notice was rendered, after one call of `show()` and one of `hide()`. The notice
is the success one when the settle callback is due first (`f + 2000 < 30000`) and the
timed-out one otherwise; the callback that runs second renders nothing. -/
theorem exclusive_race_resolution (s : Page) (hi : Idle s) (hx : s.modalTransitioning = false)
    (hr : resolvers s = []) (ht : s.topicValue ≠ "") (hs : s.modalShowMs < 2000)
    (f g : Nat) (hfg : 30000 ≤ f + g) :
    Idle (run [Event.submit, Event.advance f, Event.focus, Event.advance g] s) ∧
    (run [Event.submit, Event.advance f, Event.focus, Event.advance g] s).btnDisabled = false ∧
    (run [Event.submit, Event.advance f, Event.focus, Event.advance g] s).log
      = s.log ++ [Render.modalShow, Render.modalHide,
          if f + 2000 < 30000 then successNotice else timedOutNotice] :=
  cycle_with_focus s f g hi hx hr ht hs hfg

/-- Scenario B with the animated modal: "Shapes" submitted, a focus event at 500 ms, the
clock taken to 30000 ms. -/
theorem exclusive_race_resolution_witness :
    Idle (chosenFade "Shapes") ∧ (chosenFade "Shapes").modalTransitioning = false ∧
    resolvers (chosenFade "Shapes") = [] ∧ (chosenFade "Shapes").topicValue ≠ "" ∧
    (chosenFade "Shapes").modalShowMs < 2000 ∧
    (run [Event.submit, Event.advance 500, Event.focus, Event.advance 29500]
        (chosenFade "Shapes")).log
      = (chosenFade "Shapes").log ++ [Render.modalShow, Render.modalHide,
          if 500 + 2000 < 30000 then successNotice else timedOutNotice] :=
  ⟨by decide, by decide, by decide, by decide, by decide,
    (exclusive_race_resolution (chosenFade "Shapes") (by decide) (by decide) (by decide)
      (by decide) (by decide) 500 29500 (by decide)).2.2⟩

/-- C2 (validation): a submit event with no topic selected leaves the modal, the disabled
flag, the label and the pulse class of the button as they are, arms no submission-timeout
timer (only the banner timer of `showAlert`), and renders the validation warning exactly
once. -/
theorem submit_without_topic (s : Page) (h : s.topicValue = "") :
    (handle Event.submit s).modalShown = s.modalShown ∧
    (handle Event.submit s).btnDisabled = s.btnDisabled ∧
    (handle Event.submit s).btnHTML = s.btnHTML ∧
    (handle Event.submit s).btnPulse = s.btnPulse ∧
    pendingTimeouts (handle Event.submit s) = pendingTimeouts s ∧
    (handle Event.submit s).timers
      = s.timers ++ [⟨s.now + alertDismissMs, Callback.alertDismiss s.nextId⟩] ∧
    (handle Event.submit s).log = s.log ++ [Render.alert validationMessage "warning"] := by
  show (onSubmit s).modalShown = _ ∧ (onSubmit s).btnDisabled = _ ∧ (onSubmit s).btnHTML = _ ∧
    (onSubmit s).btnPulse = _ ∧ pendingTimeouts (onSubmit s) = _ ∧ (onSubmit s).timers = _ ∧
    (onSubmit s).log = _
  rw [onSubmit_of_empty s h]
  refine ⟨rfl, rfl, rfl, rfl, ?_, rfl, rfl⟩
  simp [pendingTimeouts, List.filter_append, Callback.isSubmitTimeout]

/-- Scenario C: a submit event on the loaded page, no topic chosen. -/
theorem submit_without_topic_witness :
    freshPage.topicValue = "" ∧ Idle (handle Event.submit freshPage) ∧
    pendingTimeouts (handle Event.submit freshPage) = pendingTimeouts freshPage ∧
    (handle Event.submit freshPage).log
      = freshPage.log ++ [Render.alert validationMessage "warning"] :=
  ⟨by decide, by decide, (submit_without_topic freshPage (by decide)).2.2.2.2.1,
    (submit_without_topic freshPage (by decide)).2.2.2.2.2.2⟩

/-- C3 at its failing input: on the page with the animated modal, "ABC" is submitted at 0 ms
and timed out at 30000 ms; at 30100 ms the modal is hidden and still in its hide transition,
the button is enabled. The Enter key on the select then runs the submit handler: `show()` is
called and ignored, so the modal stays hidden and the tracker is not Armed, while the button
is disabled with the busy label and the 30000 ms timer is armed. The Enter key also runs
the submit handler while the modal is shown and the button disabled: a second call of
`show()` and a second timer. -/
theorem submit_during_hide_not_armed :
    Reachable (run timedOutCycle fadePage) ∧
    (run timedOutCycle fadePage).now = 30100 ∧
    (run timedOutCycle fadePage).topicValue = "ABC" ∧
    (run timedOutCycle fadePage).modalShown = false ∧
    (run timedOutCycle fadePage).modalTransitioning = true ∧
    (run timedOutCycle fadePage).btnDisabled = false ∧
    (handle Event.enterKey (run timedOutCycle fadePage)).log
      = (run timedOutCycle fadePage).log ++ [Render.modalShow] ∧
    pendingTimeouts (handle Event.enterKey (run timedOutCycle fadePage))
      = [⟨60100, Callback.submitTimeout "ABC"⟩] ∧
    (handle Event.enterKey (run timedOutCycle fadePage)).btnDisabled = true ∧
    (handle Event.enterKey (run timedOutCycle fadePage)).btnHTML = busyLabel ∧
    ¬ Armed (handle Event.enterKey (run timedOutCycle fadePage)) ∧
    (run [Event.change "ABC", Event.submit] fadePage).btnDisabled = true ∧
    (run [Event.change "ABC", Event.submit, Event.enterKey] fadePage).log
      = [Render.modalShow, Render.modalShow] ∧
    pendingTimeouts (run [Event.change "ABC", Event.submit, Event.enterKey] fadePage)
      = [⟨30000, Callback.submitTimeout "ABC"⟩, ⟨30000, Callback.submitTimeout "ABC"⟩] := by
  refine ⟨⟨fadePage, timedOutCycle, by decide, rfl⟩, ?_, ?_, ?_, ?_, ?_, ?_, ?_, ?_, ?_, ?_,
    ?_, ?_, ?_⟩ <;> decide

/-- C4 at its failing input: on the page with the animated modal, a focus event at 0 ms and
"ABC" submitted at 1900 ms. The settle callback runs at 2000 ms, during the show transition:
it renders the success notice and enables the button, and its call of `hide()` is ignored,
so the modal stays shown. The timeout callback of the same submission, at 31900 ms, then
finds the modal shown and renders the timed-out notice: two notices for one submission. And
on the page of 1999 ms, the settle callback run twice renders the success notice twice. -/
theorem second_callback_renders_again :
    Armed (run (settleDuringShow 99) fadePage) ∧
    (run (settleDuringShow 99) fadePage).modalTransitioning = true ∧
    (run (settleDuringShow 99) fadePage).log = [Render.modalShow] ∧
    (run (settleDuringShow 100) fadePage).now = 2000 ∧
    (run (settleDuringShow 100) fadePage).log
      = [Render.modalShow, Render.modalHide, successNotice] ∧
    (run (settleDuringShow 100) fadePage).btnDisabled = false ∧
    Armed (run (settleDuringShow 100) fadePage) ∧
    (run (settleDuringShow 30000) fadePage).now = 31900 ∧
    (run (settleDuringShow 30000) fadePage).log
      = [Render.modalShow, Render.modalHide, successNotice, Render.modalHide, timedOutNotice] ∧
    (focusSettleCallback (run (settleDuringShow 99) fadePage)).log
      = [Render.modalShow, Render.modalHide, successNotice] ∧
    (focusSettleCallback (focusSettleCallback (run (settleDuringShow 99) fadePage))).log
      = [Render.modalShow, Render.modalHide, successNotice, Render.modalHide, successNotice] := by
  refine ⟨?_, ?_, ?_, ?_, ?_, ?_, ?_, ?_, ?_, ?_, ?_⟩ <;> decide

/-- C5, as the claim states it, fails: after the submission of "ABC" was resolved by a focus
event at 2500 ms the page is Idle and the timeout timer of the submission is still pending;
and after a second submission at 20000 ms the page is Armed with two of them pending. -/
theorem timer_survives_refocus :
    Reachable (run refocusCycle freshPage) ∧
    Idle (run refocusCycle freshPage) ∧
    pendingTimeouts (run refocusCycle freshPage) = [⟨30000, Callback.submitTimeout "ABC"⟩] ∧
    Reachable (run (secondCycle 0) freshPage) ∧
    Armed (run (secondCycle 0) freshPage) ∧
    pendingTimeouts (run (secondCycle 0) freshPage)
      = [⟨30000, Callback.submitTimeout "ABC"⟩, ⟨50000, Callback.submitTimeout "ABC"⟩] :=
  ⟨⟨freshPage, refocusCycle, by decide, rfl⟩, by decide, by decide,
    ⟨freshPage, secondCycle 0, by decide, rfl⟩, by decide, by decide⟩

/-- C5 (as amended): on every reachable page, an Armed tracker has at least one
submission-timeout timer pending; every pending one is due later than now and within
30000 ms; and no event cancels one: it is still pending after every event that does not take
the clock to its due time. -/
theorem armed_has_pending_timeout (s : Page) (hs : Reachable s) :
    (Armed s → 1 ≤ (pendingTimeouts s).length) ∧
    (∀ t ∈ pendingTimeouts s, s.now < t.due ∧ t.due ≤ s.now + 30000) ∧
    (∀ (e : Event), ∀ t ∈ pendingTimeouts s, s.now + elapsed [e] < t.due →
      t ∈ pendingTimeouts (handle e s)) := by
  refine ⟨fun ha => ?_, fun t ht => ?_, fun e t ht hlt => ?_⟩
  · obtain ⟨t, ht1, ht2, -⟩ := (tracked_of_reachable hs).armed_timer ha
    exact List.length_pos.2 (List.ne_nil_of_mem (List.mem_filter.2 ⟨ht1, ht2⟩))
  · obtain ⟨h1, h2⟩ := List.mem_filter.1 ht
    exact ⟨quiet_of_reachable hs t h1, bounded_of_reachable hs t h1 h2⟩
  · obtain ⟨h1, h2⟩ := List.mem_filter.1 ht
    exact List.mem_filter.2 ⟨handle_keeps e s t h1 hlt, h2⟩

/-- The page Armed by a submission of "ABC" has its timeout timer pending. -/
theorem armed_has_pending_timeout_witness :
    Reachable (run [Event.change "ABC", Event.submit] freshPage) ∧
    Armed (run [Event.change "ABC", Event.submit] freshPage) ∧
    1 ≤ (pendingTimeouts (run [Event.change "ABC", Event.submit] freshPage)).length :=
  ⟨⟨freshPage, [Event.change "ABC", Event.submit], by decide, rfl⟩, by decide,
    (armed_has_pending_timeout (run [Event.change "ABC", Event.submit] freshPage)
      ⟨freshPage, [Event.change "ABC", Event.submit], by decide, rfl⟩).1 (by decide)⟩

/-- C6, as the claim states it, fails: the second submission, made at 20000 ms, is still Armed
at 29999 ms with nothing rendered for it; at 30000 ms the timeout callback of the first
submission runs, hides the modal, enables the button and renders the timed-out notice, while
the timer of the second submission is still pending. -/
theorem stale_timeout_resolves_next_cycle :
    Armed (run (secondCycle 9999) freshPage) ∧
    (run (secondCycle 9999) freshPage).log
      = [Render.modalShow, Render.modalHide, successNotice, Render.modalShow] ∧
    (run (secondCycle 10000) freshPage).now = 30000 ∧
    Idle (run (secondCycle 10000) freshPage) ∧
    (run (secondCycle 10000) freshPage).btnDisabled = false ∧
    (run (secondCycle 10000) freshPage).log
      = [Render.modalShow, Render.modalHide, successNotice, Render.modalShow,
          Render.modalHide, timedOutNotice] ∧
    pendingTimeouts (run (secondCycle 10000) freshPage)
      = [⟨50000, Callback.submitTimeout "ABC"⟩] := by
  refine ⟨?_, ?_, ?_, ?_, ?_, ?_, ?_⟩ <;> decide

/-- C6 (as amended): no event cancels a pending submission-timeout timer, and the timeout
callback tests only whether the modal is shown, whatever submission armed it. On an Idle page
it changes nothing; on an Armed page whose modal is at rest it hides the modal, enables the
button and renders the timed-out notice. A submit event with a topic on a page whose modal is
hidden and at rest, with no timeout or settle callback pending and a show transition shorter
than 30000 ms, followed by nothing but the passing of time, leaves the page Armed with
nothing rendered while less than 30000 ms have passed, and timed out once they have. -/
theorem timeout_callback_resolves_any_cycle (s : Page) (topic : String) :
    (∀ (e : Event), ∀ t ∈ pendingTimeouts s, s.now + elapsed [e] < t.due →
      t ∈ pendingTimeouts (handle e s)) ∧
    (Idle s → submitTimeoutCallback topic s = s) ∧
    (Armed s → s.modalTransitioning = false →
      Idle (submitTimeoutCallback topic s) ∧
      (submitTimeoutCallback topic s).btnDisabled = false ∧
      (submitTimeoutCallback topic s).log = s.log ++ [Render.modalHide, timedOutNotice]) ∧
    (Idle s → s.modalTransitioning = false → resolvers s = [] → s.topicValue ≠ "" →
      s.modalShowMs < 30000 → ∀ f : Nat,
      (f < 30000 →
        Armed (run [Event.submit, Event.advance f] s) ∧
        (run [Event.submit, Event.advance f] s).log = s.log ++ [Render.modalShow]) ∧
      (30000 ≤ f →
        Idle (run [Event.submit, Event.advance f] s) ∧
        (run [Event.submit, Event.advance f] s).btnDisabled = false ∧
        (run [Event.submit, Event.advance f] s).log
          = s.log ++ [Render.modalShow, Render.modalHide, timedOutNotice])) := by
  refine ⟨fun e t ht hlt => ?_, fun hi => submitTimeoutCallback_idle s topic hi,
    fun ha hx => ?_, ?_⟩
  · obtain ⟨h1, h2⟩ := List.mem_filter.1 ht
    exact List.mem_filter.2 ⟨handle_keeps e s t h1 hlt, h2⟩
  · obtain ⟨h1, h2, h3, -⟩ := runCallback_shown (Callback.submitTimeout topic) s rfl ha
    exact ⟨h3.trans (modalHide_modalShown s ha hx), h1, h2⟩
  · intro hi hx hr ht hs f
    exact cycle_without_focus s f hi hx hr ht hs

/-- The timeout callback of "ABC" run while a later submission is Armed, and a submission
of "ABC" on the loaded page with the animated modal. -/
theorem timeout_callback_resolves_any_cycle_witness :
    Armed (run (secondCycle 9999) fadePage) ∧
    (run (secondCycle 9999) fadePage).modalTransitioning = false ∧
    Idle (submitTimeoutCallback "ABC" (run (secondCycle 9999) fadePage)) ∧
    (submitTimeoutCallback "ABC" (run (secondCycle 9999) fadePage)).log
      = (run (secondCycle 9999) fadePage).log ++ [Render.modalHide, timedOutNotice] ∧
    Idle (chosenFade "ABC") ∧ (chosenFade "ABC").modalTransitioning = false ∧
    resolvers (chosenFade "ABC") = [] ∧ (chosenFade "ABC").topicValue ≠ "" ∧
    (chosenFade "ABC").modalShowMs < 30000 ∧
    Armed (run [Event.submit, Event.advance 29999] (chosenFade "ABC")) ∧
    Idle (run [Event.submit, Event.advance 30000] (chosenFade "ABC")) :=
  ⟨by decide, by decide,
    ((timeout_callback_resolves_any_cycle (run (secondCycle 9999) fadePage) "ABC").2.2.1
      (by decide) (by decide)).1,
    ((timeout_callback_resolves_any_cycle (run (secondCycle 9999) fadePage) "ABC").2.2.1
      (by decide) (by decide)).2.2,
    by decide, by decide, by decide, by decide, by decide,
    (((timeout_callback_resolves_any_cycle (chosenFade "ABC") "ABC").2.2.2
      (by decide) (by decide) (by decide) (by decide) (by decide) 29999).1 (by decide)).1,
    (((timeout_callback_resolves_any_cycle (chosenFade "ABC") "ABC").2.2.2
      (by decide) (by decide) (by decide) (by decide) (by decide) 30000).2 (by decide)).1⟩

/-- C7, as the claim states it, fails: a focus event at 0 ms on the Idle page, "ABC" submitted
at 1000 ms; the submission is Armed at 1999 ms, and at 2000 ms the settle callback of the
focus event hides the modal and renders the success notice. -/
theorem focus_in_idle_resolves_later_submit :
    Idle freshPage ∧
    Armed (run (focusThenSubmit 999) freshPage) ∧
    (run (focusThenSubmit 999) freshPage).log = [Render.modalShow] ∧
    (run (focusThenSubmit 1000) freshPage).now = 2000 ∧
    Idle (run (focusThenSubmit 1000) freshPage) ∧
    (run (focusThenSubmit 1000) freshPage).log
      = [Render.modalShow, Render.modalHide, successNotice] := by
  refine ⟨?_, ?_, ?_, ?_, ?_, ?_⟩ <;> decide

/-- C7 (as amended): a focus event only arms its settle timer; the modal, the button and the
log are as before. Its settle callback changes nothing on a page that is Idle when it runs,
so a focus event on an Idle page followed by events without a submission renders nothing and
leaves the page Idle. When the focus event arrives on a page whose modal is hidden and at
rest with no timeout or settle callback pending, and a submit event with a topic follows
`d` ms later with nothing but the passing of time in between and after, and the show
transition of that submission ends before the settle delay elapses (`d` plus the show
transition is less than 2000 ms), then the settle callback resolves that submission with the
success notice, 2000 ms after the focus event. -/
theorem focus_guard_at_settle_time (s : Page) :
    ((handle Event.focus s).modalShown = s.modalShown ∧
      (handle Event.focus s).modalTransitioning = s.modalTransitioning ∧
      (handle Event.focus s).btnDisabled = s.btnDisabled ∧
      (handle Event.focus s).btnHTML = s.btnHTML ∧
      (handle Event.focus s).log = s.log ∧
      (handle Event.focus s).timers = s.timers ++ [⟨s.now + 2000, Callback.focusSettle⟩]) ∧
    (Idle s → focusSettleCallback s = s) ∧
    (Idle s → ∀ es : List Event, (∀ e ∈ es, e.isSubmission = false) →
      Idle (run (Event.focus :: es) s) ∧ (run (Event.focus :: es) s).log = s.log) ∧
    (Idle s → s.modalTransitioning = false → resolvers s = [] → s.topicValue ≠ "" →
      ∀ d g : Nat, d + s.modalShowMs < 2000 → 2000 ≤ d + g →
      Idle (run [Event.focus, Event.advance d, Event.submit, Event.advance g] s) ∧
      (run [Event.focus, Event.advance d, Event.submit, Event.advance g] s).btnDisabled = false ∧
      (run [Event.focus, Event.advance d, Event.submit, Event.advance g] s).log
        = s.log ++ [Render.modalShow, Render.modalHide, successNotice]) := by
  refine ⟨⟨rfl, rfl, rfl, rfl, rfl, rfl⟩, fun hi => focusSettleCallback_idle s hi, ?_, ?_⟩
  · intro hi es hes
    obtain ⟨h1, -, h3⟩ := stays_run es (onFocus s) hes hi
    exact ⟨h1, h3⟩
  · intro hi hx hr ht d g hd hg
    exact focus_before_submit s d g hi hx hr ht hd hg

/-- A focus event on the Idle page with the animated modal and "ABC" chosen, and a submission
1000 ms later. -/
theorem focus_guard_at_settle_time_witness :
    Idle (chosenFade "ABC") ∧ (chosenFade "ABC").modalTransitioning = false ∧
    resolvers (chosenFade "ABC") = [] ∧ (chosenFade "ABC").topicValue ≠ "" ∧
    1000 + (chosenFade "ABC").modalShowMs < 2000 ∧
    Idle (run [Event.focus, Event.advance 1000, Event.submit, Event.advance 1000]
      (chosenFade "ABC")) ∧
    (run [Event.focus, Event.advance 1000, Event.submit, Event.advance 1000]
        (chosenFade "ABC")).log
      = (chosenFade "ABC").log ++ [Render.modalShow, Render.modalHide, successNotice] :=
  ⟨by decide, by decide, by decide, by decide, by decide,
    ((focus_guard_at_settle_time (chosenFade "ABC")).2.2.2 (by decide) (by decide) (by decide)
      (by decide) 1000 1000 (by decide) (by decide)).1,
    ((focus_guard_at_settle_time (chosenFade "ABC")).2.2.2 (by decide) (by decide) (by decide)
      (by decide) 1000 1000 (by decide) (by decide)).2.2⟩

/-- C8 at its failing input: "ABC" is submitted and the select is changed to "Shapes" before
the timeout callback runs at 30000 ms. The callback labels the button with the captured
topic, "Generate ABC Presentation", and not with the label of the current value. The same
holds when the timeout callback of "ABC" runs during a later submission of "Shapes". -/
theorem timeout_label_from_captured_topic :
    (run changeWhileBusy freshPage).topicValue = "Shapes" ∧
    (run changeWhileBusy freshPage).log = [Render.modalShow, Render.modalHide, timedOutNotice] ∧
    (run changeWhileBusy freshPage).btnHTML = topicLabel "ABC" ∧
    (run changeWhileBusy freshPage).btnHTML
      ≠ (updateGenerateButton (run changeWhileBusy freshPage).topicValue
          (run changeWhileBusy freshPage)).btnHTML ∧
    (run changeBetweenCycles freshPage).topicValue = "Shapes" ∧
    (run changeBetweenCycles freshPage).btnHTML = topicLabel "ABC" ∧
    (run changeBetweenCycles freshPage).btnHTML
      ≠ (updateGenerateButton (run changeBetweenCycles freshPage).topicValue
          (run changeBetweenCycles freshPage)).btnHTML := by
  refine ⟨?_, ?_, ?_, ?_, ?_, ?_, ?_⟩ <;> decide

/-- C9 at its failing input: after the Enter key ran the submit handler during the hide
transition (30100 ms), the clock is taken to 60100 ms. Every timer has run, the timeout
callback of that submission included, which found the modal hidden and changed nothing: the
button is still disabled and still carries the busy label. It stays so for any further
time. -/
theorem button_stays_disabled :
    Reachable (run (submitDuringHide 30000) fadePage) ∧
    (run (submitDuringHide 30000) fadePage).now = 60100 ∧
    (run (submitDuringHide 30000) fadePage).timers = [] ∧
    (run (submitDuringHide 30000) fadePage).modalShown = false ∧
    (run (submitDuringHide 30000) fadePage).btnDisabled = true ∧
    (run (submitDuringHide 30000) fadePage).btnHTML = busyLabel ∧
    (∀ dt : Nat, (advance dt (run (submitDuringHide 30000) fadePage)).btnDisabled = true) := by
  refine ⟨⟨fadePage, submitDuringHide 30000, by decide, rfl⟩, ?_, ?_, ?_, ?_, ?_, ?_⟩
  · decide
  · decide
  · decide
  · decide
  · decide
  · intro dt
    have h : (run (submitDuringHide 30000) fadePage).timers = [] := by decide
    have hd : (run (submitDuringHide 30000) fadePage).btnDisabled = true := by decide
    show (runDue _ _ _).btnDisabled = true
    rw [h]
    exact hd

/-- C10 at its failing inputs, both reachable from the loaded page with the animated modal:
after the settle callback ran during the show transition the modal is shown and the button
enabled; after the submit handler ran during the hide transition the modal is hidden and
the button disabled, also once the transition is over. -/
theorem disabled_flag_disagrees_with_modal :
    Reachable (run (settleDuringShow 100) fadePage) ∧
    (run (settleDuringShow 100) fadePage).modalShown = true ∧
    (run (settleDuringShow 100) fadePage).btnDisabled = false ∧
    Reachable (run (submitDuringHide 1000) fadePage) ∧
    (run (submitDuringHide 1000) fadePage).modalShown = false ∧
    (run (submitDuringHide 1000) fadePage).modalTransitioning = false ∧
    (run (submitDuringHide 1000) fadePage).btnDisabled = true := by
  refine ⟨⟨fadePage, settleDuringShow 100, by decide, rfl⟩, ?_, ?_,
    ⟨fadePage, submitDuringHide 1000, by decide, rfl⟩, ?_, ?_, ?_⟩ <;> decide

end KinderSlides
